import Mathlib

/-!
# Verification of the webhook execution engine (ha-webhook-actions)

Shallow embedding of `custom_components/webhook_actions` (webhook.py,
storage.py, __init__.py, const.py).  Python values of JSON shape are
modelled by `Json`; Python dicts by insertion-ordered association lists;
the Home Assistant template engine, the JSON parser of the standard
library and the network are modelled as oracle parameters.  The effects
of one execution (template render passes, HTTP requests, backoff sleeps,
bus events) are recorded in a trace list.
-/

namespace WebhookActions

/-- JSON-like Python value (`None`, `bool`, numbers, `str`, `list`, `dict`).
Python `None` is `Json.null`. -/
inductive Json where
  | null
  | bool (b : Bool)
  | num (n : Int)
  | str (s : String)
  | arr (xs : List Json)
  | obj (kvs : List (String × Json))

mutual

/-- Structural equality test on `Json` (models Python `==` on JSON-like
values with string keys). -/
def Json.beq : Json → Json → Bool
  | .null, .null => true
  | .bool a, .bool b => a == b
  | .num a, .num b => a == b
  | .str a, .str b => a == b
  | .arr xs, .arr ys => Json.beqList xs ys
  | .obj xs, .obj ys => Json.beqObj xs ys
  | _, _ => false

/-- Elementwise equality test on JSON lists. -/
def Json.beqList : List Json → List Json → Bool
  | [], [] => true
  | x :: xs, y :: ys => Json.beq x y && Json.beqList xs ys
  | _, _ => false

/-- Pairwise equality test on JSON objects. -/
def Json.beqObj : List (String × Json) → List (String × Json) → Bool
  | [], [] => true
  | (k, v) :: xs, (l, w) :: ys => k == l && Json.beq v w && Json.beqObj xs ys
  | _, _ => false

end

mutual

theorem Json.beq_iff : ∀ a b : Json, Json.beq a b = true ↔ a = b
  | .null, .null => by simp [Json.beq]
  | .null, .bool _ => by simp [Json.beq]
  | .null, .num _ => by simp [Json.beq]
  | .null, .str _ => by simp [Json.beq]
  | .null, .arr _ => by simp [Json.beq]
  | .null, .obj _ => by simp [Json.beq]
  | .bool _, .null => by simp [Json.beq]
  | .bool a, .bool b => by simp [Json.beq]
  | .bool _, .num _ => by simp [Json.beq]
  | .bool _, .str _ => by simp [Json.beq]
  | .bool _, .arr _ => by simp [Json.beq]
  | .bool _, .obj _ => by simp [Json.beq]
  | .num _, .null => by simp [Json.beq]
  | .num _, .bool _ => by simp [Json.beq]
  | .num a, .num b => by simp [Json.beq]
  | .num _, .str _ => by simp [Json.beq]
  | .num _, .arr _ => by simp [Json.beq]
  | .num _, .obj _ => by simp [Json.beq]
  | .str _, .null => by simp [Json.beq]
  | .str _, .bool _ => by simp [Json.beq]
  | .str _, .num _ => by simp [Json.beq]
  | .str a, .str b => by simp [Json.beq]
  | .str _, .arr _ => by simp [Json.beq]
  | .str _, .obj _ => by simp [Json.beq]
  | .arr _, .null => by simp [Json.beq]
  | .arr _, .bool _ => by simp [Json.beq]
  | .arr _, .num _ => by simp [Json.beq]
  | .arr _, .str _ => by simp [Json.beq]
  | .arr xs, .arr ys => by simp [Json.beq, Json.beqList_iff xs ys]
  | .arr _, .obj _ => by simp [Json.beq]
  | .obj _, .null => by simp [Json.beq]
  | .obj _, .bool _ => by simp [Json.beq]
  | .obj _, .num _ => by simp [Json.beq]
  | .obj _, .str _ => by simp [Json.beq]
  | .obj _, .arr _ => by simp [Json.beq]
  | .obj xs, .obj ys => by simp [Json.beq, Json.beqObj_iff xs ys]

theorem Json.beqList_iff : ∀ xs ys : List Json, Json.beqList xs ys = true ↔ xs = ys
  | [], [] => by simp [Json.beqList]
  | x :: xs, y :: ys => by
      simp [Json.beqList, Json.beq_iff x y, Json.beqList_iff xs ys]
  | [], _ :: _ => by simp [Json.beqList]
  | _ :: _, [] => by simp [Json.beqList]

theorem Json.beqObj_iff : ∀ xs ys : List (String × Json), Json.beqObj xs ys = true ↔ xs = ys
  | [], [] => by simp [Json.beqObj]
  | (k, v) :: xs, (l, w) :: ys => by
      simp only [Json.beqObj, Bool.and_eq_true, beq_iff_eq, Json.beq_iff v w,
        Json.beqObj_iff xs ys, List.cons.injEq, Prod.mk.injEq]
  | [], _ :: _ => by simp [Json.beqObj]
  | _ :: _, [] => by simp [Json.beqObj]

end

instance : DecidableEq Json := fun a b => decidable_of_iff _ (Json.beq_iff a b)

/-- Python truthiness (`bool(x)`) of a JSON-like value: `None`, `False`,
`0`, `""`, `[]` and `{}` are falsy. -/
def pyTruthy : Json → Bool
  | .null => false
  | .bool b => b
  | .num n => n != 0
  | .str s => s != ""
  | .arr xs => !xs.isEmpty
  | .obj kvs => !kvs.isEmpty

/-- `d.get(k)` on a Python dict modelled as an insertion-ordered
association list: the first matching entry's value. -/
def pyLookup {α β : Type} [BEq α] (l : List (α × β)) (k : α) : Option β :=
  (l.find? (fun kv => kv.1 == k)).map (·.2)

/-- `d[k] = v` on a Python dict so modelled: an existing key keeps its
position and gets the new value, a new key is appended. -/
def pySet {α β : Type} [BEq α] (l : List (α × β)) (k : α) (v : β) : List (α × β) :=
  if l.any (fun kv => kv.1 == k) then
    l.map (fun kv => if kv.1 == k then (k, v) else kv)
  else
    l ++ [(k, v)]

/-- `base.update(upd)` on Python dicts (webhook.py line 62,
storage.py line 98). -/
def pyUpdate {α β : Type} [BEq α] (base upd : List (α × β)) : List (α × β) :=
  upd.foldl (fun acc kv => pySet acc kv.1 kv.2) base

/-- `d.get(key)` on a Python dict modelled as an association list
(first match; `None` when absent or when the receiver is not a dict). -/
def jGet : Json → String → Option Json
  | .obj kvs, key => pyLookup kvs key
  | _, _ => none

/-! ## Constants (const.py) -/

def DEFAULT_TIMEOUT : Int := 10
def DEFAULT_RETRY_ATTEMPTS : Int := 3
def DEFAULT_RETRY_BACKOFF : Int := 2
def MAX_RESPONSE_SIZE : Nat := 1024 * 1024
def ERROR_CONNECTION : String := "connection_error"
def ERROR_TIMEOUT : String := "timeout_error"
def ERROR_HTTP : String := "http_error"
def ERROR_TEMPLATE : String := "template_error"

/-! ## Request Builder (webhook.py, `WebhookExecutor.execute` lines 54-68)

`self.config` is a Python dict; absent keys read as `None` via `.get`,
hence the `Option` fields.  Overrides are the keyword arguments of
`execute` (default `None`; a payload override of `None` is
indistinguishable from an absent one, as in the Python signature, so it
is carried as `Json` with `null` meaning "not supplied"). -/

structure WebhookConfig where
  webhook_id : Option String := none
  url : Option String := none
  method : Option String := none
  headers : Option (List (String × String)) := none
  payload : Json := .null
  timeout : Option Int := none
  retry_attempts : Option Int := none
  retry_backoff : Option Int := none

structure Overrides where
  url : Option String := none
  headers : Option (List (String × String)) := none
  payload : Json := .null
  timeout : Option Int := none

structure BuiltRequest where
  webhookId : String
  url : Option String
  method : String
  headers : List (String × String)
  payload : Json
  timeout : Int
  retryAttempts : Int
  retryBackoff : Int

/-- Lines 54-68 of webhook.py.  `x or y` is Python truthiness: a `None`
or empty-string url override and a `None` or zero timeout override fall
back to the config value; a falsy (`None`/empty) headers override skips
the `update`; the payload override applies whenever it `is not None`. -/
def buildRequest (cfg : WebhookConfig) (ovr : Overrides) : BuiltRequest where
  webhookId := cfg.webhook_id.getD "unknown"
  url :=
    match ovr.url with
    | some u => if u = "" then cfg.url else some u
    | none => cfg.url
  method := cfg.method.getD "POST"
  headers :=
    match ovr.headers with
    | some o => if o.isEmpty then cfg.headers.getD [] else pyUpdate (cfg.headers.getD []) o
    | none => cfg.headers.getD []
  payload :=
    match ovr.payload with
    | .null => cfg.payload
    | p => p
  timeout :=
    match ovr.timeout with
    | some t => if t = 0 then cfg.timeout.getD DEFAULT_TIMEOUT else t
    | none => cfg.timeout.getD DEFAULT_TIMEOUT
  retryAttempts := cfg.retry_attempts.getD DEFAULT_RETRY_ATTEMPTS
  retryBackoff := cfg.retry_backoff.getD DEFAULT_RETRY_BACKOFF

/-! ## Template Renderer (webhook.py lines 257-303)

The Home Assistant template engine (`Template(...).async_render()`) is an
oracle `String → Except String String`: `.error msg` models a raised
`TemplateError(msg)`.  `json.loads` is an oracle `String → Option Json`:
`none` models `JSONDecodeError`. -/

/-- `"\x7b\x7b" in value or "\x7b%" in value` — scans a char list for an
opening brace followed by a brace or percent (lines 262). -/
def hasMarkerChars : List Char → Bool
  | c1 :: c2 :: rest => (c1 == '{' && (c2 == '{' || c2 == '%')) || hasMarkerChars (c2 :: rest)
  | _ => false

def hasMarker (s : String) : Bool := hasMarkerChars s.toList

/-- `_render_template` on a string value (lines 257-266): values without
template markers are returned unchanged, otherwise the engine oracle is
consulted. -/
def renderTemplate (r : String → Except String String) (s : String) : Except String String :=
  if hasMarker s then r s else .ok s

/-- `_render_headers` (lines 268-273): renders every value, keeps keys and
order.  (`str(...)` coercion is the identity here since the oracle
already yields strings.) -/
def renderHeaders (r : String → Except String String) :
    List (String × String) → Except String (List (String × String))
  | [] => .ok []
  | (k, v) :: rest => do
      let v' ← renderTemplate r v
      let rest' ← renderHeaders r rest
      .ok ((k, v') :: rest')

/-- Python `str.strip()` whitespace (ASCII subset). -/
def isPySpace (c : Char) : Bool :=
  c == ' ' || c == '\t' || c == '\n' || c == '\r' || c == '\x0b' || c == '\x0c'

/-- `rendered.strip().startswith(("\x7b", "["))` (line 284): the leading
non-whitespace character is an opening brace or bracket. -/
def leadingBracket (s : String) : Bool :=
  match s.toList.dropWhile isPySpace with
  | [] => false
  | c :: _ => c == '{' || c == '['

mutual

/-- `_render_payload` (lines 275-303): `None` passes through; a string is
rendered and, when the rendered result leads with an opening
brace/bracket, re-parsed as JSON (parse failure keeps the string);
dicts render each value, lists each element; other leaves pass through. -/
def renderPayload (r : String → Except String String) (pj : String → Option Json) :
    Json → Except String Json
  | .null => .ok .null
  | .str s => do
      let rendered ← renderTemplate r s
      if leadingBracket rendered then
        match pj rendered with
        | some v => .ok v
        | none => .ok (.str rendered)
      else
        .ok (.str rendered)
  | .obj kvs => do
      let kvs' ← renderPairs r pj kvs
      .ok (.obj kvs')
  | .arr xs => do
      let xs' ← renderItems r pj xs
      .ok (.arr xs')
  | .bool b => .ok (.bool b)
  | .num n => .ok (.num n)

/-- Value-wise rendering of a dict's entries, in order. -/
def renderPairs (r : String → Except String String) (pj : String → Option Json) :
    List (String × Json) → Except String (List (String × Json))
  | [] => .ok []
  | (k, v) :: rest => do
      let v' ← renderPayload r pj v
      let rest' ← renderPairs r pj rest
      .ok ((k, v') :: rest')

/-- Element-wise rendering of a list payload, in order. -/
def renderItems (r : String → Except String String) (pj : String → Option Json) :
    List Json → Except String (List Json)
  | [] => .ok []
  | x :: rest => do
      let x' ← renderPayload r pj x
      let rest' ← renderItems r pj rest
      .ok (x' :: rest')

end

/-- The render pass of `execute` (lines 70-74): url, then headers, then
payload; the first `TemplateError` aborts the pass. -/
def renderAll (r : String → Except String String) (pj : String → Option Json)
    (url : Option String) (headers : List (String × String)) (payload : Json) :
    Except String (Option String × List (String × String) × Json) := do
  let u ←
    match url with
    | some s => Except.map some (renderTemplate r s)
    | none => Except.ok none
  let hs ← renderHeaders r headers
  let p ← renderPayload r pj payload
  .ok (u, hs, p)

/-! ## Retry Controller (webhook.py, `WebhookExecutor.execute` lines 80-187)

One HTTP attempt (`_make_request` through the network) is an oracle
indexed by the 0-based attempt number; its outcome mirrors the `except`
arms of the loop.  The loop itself is embedded with a fuel counter
`fuel = retry_attempts - attempt`, so `attempt < retry_attempts - 1`
(line 168, guarding the backoff sleep) is `fuel ≠ 0` after the step. -/

structure RespData where
  status_code : Nat
  body : String := ""
  deriving DecidableEq, Repr

inductive TransportOutcome where
  /-- `_make_request` returned. -/
  | ok (r : RespData)
  /-- `aiohttp.ClientConnectorError` (line 111). -/
  | connError (msg : String)
  /-- `asyncio.TimeoutError` (line 121). -/
  | timeoutErr (msg : String)
  /-- `aiohttp.ClientResponseError` (line 130). -/
  | httpError (status : Nat) (msg : String)
  /-- The catch-all `except Exception` (line 157). -/
  | otherErr (msg : String)
  deriving DecidableEq, Repr

/-- Observable effects of one `execute` call, in order. -/
inductive Effect where
  /-- One pass of lines 71-74, carrying the rendered url/headers/payload. -/
  | renderPass (url : Option String) (headers : List (String × String)) (payload : Json)
  /-- One `_make_request` issued with these arguments (line 84). -/
  | request (url : Option String) (method : String)
      (headers : List (String × String)) (payload : Json)
  /-- `asyncio.sleep(wait_time)` (line 176). -/
  | sleep (seconds : Int)
  /-- `EVENT_WEBHOOK_SUCCESS` fired (line 93). -/
  | fireSuccess (webhookId : String) (statusCode : Nat) (attempt : Int)
  /-- `EVENT_WEBHOOK_ERROR` fired (`_fire_error_event`, lines 305-324). -/
  | fireError (webhookId : String) (errorType : String) (errorMessage : String)
      (attempt : Int) (statusCode : Option Nat)
  deriving DecidableEq

/-- Exceptions escaping `execute`. -/
inductive RaisedErr where
  /-- Re-raised `TemplateError` (line 78). -/
  | templateError (msg : String)
  /-- Re-raised non-retryable `ClientResponseError` (line 147). -/
  | clientResponseError (status : Nat) (msg : String)
  /-- `HomeAssistantError` (line 187, and __init__.py lines 161/190). -/
  | homeAssistantError (msg : String)
  deriving DecidableEq, Repr

/-- `(error_type, error_message)` stored in `last_error` for a failed
attempt (lines 112, 122, 131, 158). -/
def outcomeErrInfo : TransportOutcome → String × String
  | .ok _ => ("", "")
  | .connError m => (ERROR_CONNECTION, m)
  | .timeoutErr m => (ERROR_TIMEOUT, m)
  | .httpError s m => (ERROR_HTTP, "HTTP " ++ toString s ++ ": " ++ m)
  | .otherErr m => (ERROR_CONNECTION, m)

/-- An attempt outcome the loop absorbs and retries: any failure except a
4xx `ClientResponseError` other than 429 (line 134). -/
def retryableFail : TransportOutcome → Bool
  | .ok _ => false
  | .httpError s _ => s == 429 || !(decide (400 ≤ s) && decide (s < 500))
  | _ => true

/-- The retry loop (lines 80-187).  `i` is the 0-based `attempt`
variable, `fuel` the remaining iterations of `range(retry_attempts)`,
`lastErr` the `last_error` slot; `ra` is the original (int-typed)
`retry_attempts` used in the post-loop error event and message. -/
def execLoop (T : Nat → TransportOutcome) (wid : String) (u : Option String)
    (method : String) (hs : List (String × String)) (p : Json) (bo ra : Int) :
    Nat → Nat → Option (String × String) → List Effect × Except RaisedErr (Option RespData)
  | 0, _, lastErr =>
    match lastErr with
    | some (ty, msg) =>
        ([.fireError wid ty msg ra none],
         .error (.homeAssistantError
           ("Webhook " ++ wid ++ " failed after " ++ toString ra ++ " attempts: " ++ msg)))
    | none => ([], .ok none)
  | fuel + 1, i, _ =>
    let req := Effect.request u method hs p
    match T i with
    | .ok r => ([req, .fireSuccess wid r.status_code ((i : Int) + 1)], .ok (some r))
    | .httpError s m =>
        if 400 ≤ s ∧ s < 500 ∧ s ≠ 429 then
          ([req, .fireError wid ERROR_HTTP ("HTTP " ++ toString s ++ ": " ++ m)
              ((i : Int) + 1) (some s)],
           .error (.clientResponseError s m))
        else
          let cont := execLoop T wid u method hs p bo ra fuel (i + 1)
            (some (ERROR_HTTP, "HTTP " ++ toString s ++ ": " ++ m))
          (req :: ((if fuel = 0 then [] else [Effect.sleep (bo ^ i)]) ++ cont.1), cont.2)
    | .connError m =>
        let cont := execLoop T wid u method hs p bo ra fuel (i + 1) (some (ERROR_CONNECTION, m))
        (req :: ((if fuel = 0 then [] else [Effect.sleep (bo ^ i)]) ++ cont.1), cont.2)
    | .timeoutErr m =>
        let cont := execLoop T wid u method hs p bo ra fuel (i + 1) (some (ERROR_TIMEOUT, m))
        (req :: ((if fuel = 0 then [] else [Effect.sleep (bo ^ i)]) ++ cont.1), cont.2)
    | .otherErr m =>
        let cont := execLoop T wid u method hs p bo ra fuel (i + 1) (some (ERROR_CONNECTION, m))
        (req :: ((if fuel = 0 then [] else [Effect.sleep (bo ^ i)]) ++ cont.1), cont.2)

/-- The oracles one `execute` call runs against. -/
structure ExecEnv where
  render : String → Except String String
  parseJson : String → Option Json
  transport : Nat → TransportOutcome

/-- `WebhookExecutor.execute` (lines 46-187): build the request, render
templates once, then run the retry loop.  A `TemplateError` fires one
error event with attempt 0 and re-raises (lines 75-78). -/
def execute (env : ExecEnv) (cfg : WebhookConfig) (ovr : Overrides) :
    List Effect × Except RaisedErr (Option RespData) :=
  let b := buildRequest cfg ovr
  match renderAll env.render env.parseJson b.url b.headers b.payload with
  | .error msg =>
      ([.fireError b.webhookId ERROR_TEMPLATE msg 0 none], .error (.templateError msg))
  | .ok (u, hs, p) =>
      let res := execLoop env.transport b.webhookId u b.method hs p
        b.retryBackoff b.retryAttempts b.retryAttempts.toNat 0 none
      (Effect.renderPass u hs p :: res.1, res.2)

/-- Human-readable message of a raised error (`str(err)`). -/
def raisedMsg : RaisedErr → String
  | .templateError m => m
  | .clientResponseError s m => "HTTP " ++ toString s ++ ": " ++ m
  | .homeAssistantError m => m

/-- `handle_webhook_call` (__init__.py lines 154-190): an unknown (or
falsy) webhook id raises `HomeAssistantError` at once — before any event
can fire; otherwise the executor runs and any exception it raises is
wrapped in a `HomeAssistantError`. -/
def handleWebhookCall (env : ExecEnv) (resolve : String → Option WebhookConfig)
    (wid : String) (ovr : Overrides) : List Effect × Except RaisedErr (Option RespData) :=
  match resolve wid with
  | none =>
      ([], .error (.homeAssistantError ("Webhook \x27" ++ wid ++ "\x27 not found")))
  | some cfg =>
      let res := execute env cfg ovr
      match res.2 with
      | .ok v => (res.1, .ok v)
      | .error e =>
          (res.1, .error (.homeAssistantError ("Webhook execution failed: " ++ raisedMsg e)))

/-! ### Trace observations -/

def isRequest : Effect → Bool
  | .request _ _ _ _ => true
  | _ => false

def isRender : Effect → Bool
  | .renderPass _ _ _ => true
  | _ => false

/-- Bus events (success or error) in a trace. -/
def isEvent : Effect → Bool
  | .fireSuccess _ _ _ => true
  | .fireError _ _ _ _ _ => true
  | _ => false

def eventCount (tr : List Effect) : Nat := tr.countP isEvent
def requestCount (tr : List Effect) : Nat := tr.countP isRequest
def renderCount (tr : List Effect) : Nat := tr.countP isRender

/-- The backoff sleeps of a trace, in order. -/
def sleeps (tr : List Effect) : List Int :=
  tr.filterMap fun e =>
    match e with
    | .sleep d => some d
    | _ => none

/-! ## Config Resolver (storage.py, `WebhookConfigManager`)

The declarative (YAML) source is `yaml_config.get("webhooks")` — absent
when the key is missing; the editable store is
`storage.data["webhooks"]`, a dict id → config. -/

structure ConfigManager where
  /-- `self.yaml_config[CONF_WEBHOOKS]` when the key is present. -/
  yamlWebhooks : Option (List Json)
  /-- `self.storage.data.get(CONF_WEBHOOKS, \x7b\x7d)`. -/
  storeWebhooks : List (String × Json)

/-- `WebhookStorage.get_webhook` (storage.py line 57). -/
def storageGetWebhook (m : ConfigManager) (wid : String) : Option Json :=
  pyLookup m.storeWebhooks wid

/-- The YAML scan of `get_webhook` (lines 110-115): first entry whose
`webhook_id` field equals the id (Python `==` between a possibly missing
field and a string). -/
def yamlFind (m : ConfigManager) (wid : String) : Option Json :=
  (m.yamlWebhooks.getD []).find? fun w =>
    match jGet w "webhook_id" with
    | some (.str s) => s == wid
    | _ => false

/-- `WebhookConfigManager.get_webhook` (lines 102-115): the editable
store is consulted first, but `if ui_webhook:` is Python truthiness, so
a falsy (e.g. empty-dict) store record falls through to the YAML scan. -/
def getWebhook (m : ConfigManager) (wid : String) : Option Json :=
  match storageGetWebhook m wid with
  | some ui => if pyTruthy ui then some ui else yamlFind m wid
  | none => yamlFind m wid

/-- Lines 89-94 of `get_all_webhooks`: seed the result with the YAML
entries keyed by their (truthy) `webhook_id` field. -/
def yamlSeed (m : ConfigManager) : List (Json × Json) :=
  (m.yamlWebhooks.getD []).foldl
    (fun acc w =>
      match jGet w "webhook_id" with
      | some wid => if pyTruthy wid then pySet acc wid w else acc
      | none => acc)
    []

/-- `WebhookConfigManager.get_all_webhooks` (lines 85-100): YAML seed,
then `webhooks.update(ui_webhooks)` — the store overlays by id. -/
def getAllWebhooks (m : ConfigManager) : List (Json × Json) :=
  pyUpdate (yamlSeed m) (m.storeWebhooks.map (fun kv => (Json.str kv.1, kv.2)))

/-! ## HTTP Transport response handling (webhook.py, `_make_request` lines 212-255)

The wire response is a `RawResponse` (status, headers, raw body bytes).
Bytes and decoded code points are `Nat`s.  `decodeIgnore` models
CPython's UTF-8 decoder with `errors=\x27ignore\x27`: canonical sequences
decode, anything malformed (stray continuation, truncated sequence,
overlong form, surrogate, beyond U+10FFFF) is skipped without error.
`response.text()` (strict decoding) succeeds exactly when re-encoding the
ignore-decode reproduces the input. -/

def isCont (b : Nat) : Bool := decide (0x80 ≤ b ∧ b < 0xC0)

/-- One step of the UTF-8 decoder on lead byte `b` with remaining input
`rest`: either a decoded code point (with the bytes after its sequence),
or `none` for a malformed/truncated sequence, whose offending lead byte
is dropped (Python decodes with `errors="ignore"`). -/
def decodeStep (b : Nat) (rest : List Nat) : Option Nat × List Nat :=
  if b < 0x80 then (some b, rest)
  else if 0xC2 ≤ b ∧ b ≤ 0xDF then
    match rest with
    | b1 :: r1 =>
      if isCont b1 then (some ((b - 0xC0) * 64 + (b1 - 0x80)), r1) else (none, rest)
    | [] => (none, [])
  else if 0xE0 ≤ b ∧ b ≤ 0xEF then
    match rest with
    | b1 :: b2 :: r2 =>
      if isCont b1 && isCont b2
          && (b != 0xE0 || decide (0xA0 ≤ b1)) && (b != 0xED || decide (b1 < 0xA0)) then
        (some ((b - 0xE0) * 4096 + (b1 - 0x80) * 64 + (b2 - 0x80)), r2)
      else (none, rest)
    | _ => (none, rest)
  else if 0xF0 ≤ b ∧ b ≤ 0xF4 then
    match rest with
    | b1 :: b2 :: b3 :: r3 =>
      if isCont b1 && isCont b2 && isCont b3
          && (b != 0xF0 || decide (0x90 ≤ b1)) && (b != 0xF4 || decide (b1 < 0x90)) then
        (some ((b - 0xF0) * 262144 + (b1 - 0x80) * 4096 + (b2 - 0x80) * 64 + (b3 - 0x80)), r3)
      else (none, rest)
    | _ => (none, rest)
  else (none, rest)

/-- Decoder loop: each step consumes at least the lead byte, so a fuel of
`length bs` always suffices. -/
def decodeLoop : Nat → List Nat → List Nat
  | _, [] => []
  | 0, _ :: _ => []
  | fuel + 1, b :: rest =>
    match decodeStep b rest with
    | (some c, rem) => c :: decodeLoop fuel rem
    | (none, rem) => decodeLoop fuel rem

/-- UTF-8 decoding of a byte list with invalid portions dropped
(Python `bytes.decode("utf-8", errors="ignore")`): canonical sequences
decode (overlong forms, surrogates and values beyond U+10FFFF are
rejected), anything malformed is skipped without error. -/
def decodeIgnore (bs : List Nat) : List Nat := decodeLoop bs.length bs

/-- Canonical UTF-8 encoding of one code point (`str.encode("utf-8")`). -/
def encodeChar (c : Nat) : List Nat :=
  if c < 0x80 then [c]
  else if c < 0x800 then [0xC0 + c / 64, 0x80 + c % 64]
  else if c < 0x10000 then [0xE0 + c / 4096, 0x80 + c / 64 % 64, 0x80 + c % 64]
  else [0xF0 + c / 262144, 0x80 + c / 4096 % 64, 0x80 + c / 64 % 64, 0x80 + c % 64]

def utf8Encode (l : List Nat) : List Nat := (l.map encodeChar).flatten

/-- `len(text.encode("utf-8"))`: the UTF-8 byte count of a decoded text. -/
def utf8Length (l : List Nat) : Nat := (utf8Encode l).length

/-- Strict UTF-8 decoding (`await response.text()` with the default utf-8
charset): succeeds iff the bytes are entirely canonical UTF-8, in which
case it agrees with the ignore-decoder; otherwise `UnicodeDecodeError`. -/
def pyDecodeStrict (bs : List Nat) : Option (List Nat) :=
  if utf8Encode (decodeIgnore bs) = bs then some (decodeIgnore bs) else none

/-- Python `int(s)` on a string: surrounding whitespace stripped, an
optional sign, then decimal digits. -/
def digitsVal (cs : List Char) : Option Nat :=
  if cs.isEmpty then none
  else if cs.all (·.isDigit) then
    some (cs.foldl (fun a c => a * 10 + (c.toNat - 48)) 0)
  else none

def pyInt? (s : String) : Option Int :=
  let cs := ((s.toList.dropWhile isPySpace).reverse.dropWhile isPySpace).reverse
  match cs with
  | '+' :: rest => (digitsVal rest).map Int.ofNat
  | '-' :: rest => (digitsVal rest).map (fun n => -(n : Int))
  | rest => (digitsVal rest).map Int.ofNat

structure RawResponse where
  status : Nat
  headers : List (String × String)
  bodyBytes : List Nat

inductive TransportLog where
  /-- `_LOGGER.warning("Response size (%d bytes) exceeds limit, truncating
  to %d bytes", ...)` (lines 233-237). -/
  | truncWarning (actualBytes limitBytes : Nat)
  deriving DecidableEq, Repr

inductive MakeReqErr where
  /-- `response.raise_for_status()` (line 214). -/
  | httpStatusError (status : Nat)
  /-- The `HomeAssistantError` raised for an over-cap `Content-Length`
  (lines 220-223). -/
  | sizeLimitError (contentLength : String)
  /-- `response.text()` on a body that is not valid UTF-8 (line 228). -/
  | unicodeDecodeError
  deriving DecidableEq, Repr

structure ResponseRec where
  status_code : Nat
  headers : List (String × String)
  body : List Nat
  json : Option Json

/-- `response.headers.get("Content-Length")` (first match). -/
def headerGet (hs : List (String × String)) (k : String) : Option String := pyLookup hs k

/-- The `Content-Length` fast-reject of `_make_request` (lines 216-225):
a truthy header value that parses as an over-cap int raises a hard size
error; an unparseable value is ignored (`except ValueError: pass`). -/
def sizeCheckOf (headers : List (String × String)) : Option MakeReqErr :=
  match headerGet headers "Content-Length" with
  | some cl =>
      if cl = "" then none
      else
        match pyInt? cl with
        | some v => if (MAX_RESPONSE_SIZE : Int) < v then some (.sizeLimitError cl) else none
        | none => none
  | none => none

/-- `if response_text: try json.loads ...` (lines 241-248): an
opportunistic parse of a non-empty body. -/
def jsonField (jparse : List Nat → Option Json) (t : List Nat) : Option Json :=
  if t.isEmpty then none else jparse t

/-- Reading the body (lines 227-255): strict text decode, re-encode,
byte-exact truncation to the cap with a warning when over it, then the
response record. -/
def readBodyOf (jparse : List Nat → Option Json) (status : Nat)
    (headers : List (String × String)) (bodyBytes : List Nat) :
    List TransportLog × Except MakeReqErr ResponseRec :=
  match pyDecodeStrict bodyBytes with
  | none => ([], .error .unicodeDecodeError)
  | some text =>
      if MAX_RESPONSE_SIZE < (utf8Encode text).length then
        ([.truncWarning (utf8Encode text).length MAX_RESPONSE_SIZE],
         .ok { status_code := status, headers := headers,
               body := decodeIgnore ((utf8Encode text).take MAX_RESPONSE_SIZE),
               json := jsonField jparse (decodeIgnore ((utf8Encode text).take MAX_RESPONSE_SIZE)) })
      else
        ([], .ok { status_code := status, headers := headers, body := text,
                   json := jsonField jparse text })

/-- `_make_request` from `raise_for_status` on (lines 212-255): status
check, `Content-Length` fast-reject, then the body read. -/
def makeRequest (jparse : List Nat → Option Json) (resp : RawResponse) :
    List TransportLog × Except MakeReqErr ResponseRec :=
  if 400 ≤ resp.status then ([], .error (.httpStatusError resp.status))
  else
    match sizeCheckOf resp.headers with
    | some e => ([], .error e)
    | none => readBodyOf jparse resp.status resp.headers resp.bodyBytes

/-! ## Dict lemmas -/

section DictLemmas

variable {α β : Type} [BEq α] [LawfulBEq α]

theorem pyLookup_nil (k : α) : pyLookup ([] : List (α × β)) k = none := rfl

theorem pyLookup_cons (x : α × β) (t : List (α × β)) (k : α) :
    pyLookup (x :: t) k = if x.1 == k then some x.2 else pyLookup t k := by
  cases h : x.1 == k <;> simp [pyLookup, List.find?_cons, h]

theorem pyLookup_append (l1 l2 : List (α × β)) (k : α) :
    pyLookup (l1 ++ l2) k =
      match pyLookup l1 k with
      | some v => some v
      | none => pyLookup l2 k := by
  induction l1 with
  | nil => simp [pyLookup_nil]
  | cons x t ih =>
      cases h : x.1 == k <;> simp [pyLookup_cons, h, ih]

theorem pyLookup_eq_none (l : List (α × β)) (k : α)
    (h : l.any (fun kv => kv.1 == k) = false) : pyLookup l k = none := by
  induction l with
  | nil => rfl
  | cons x t ih =>
      simp only [List.any_cons, Bool.or_eq_false_iff] at h
      simp [pyLookup_cons, h.1, ih h.2]

theorem pyLookup_map_set (l : List (α × β)) (k : α) (v : β)
    (h : l.any (fun kv => kv.1 == k) = true) :
    pyLookup (l.map (fun kv => if kv.1 == k then (k, v) else kv)) k = some v := by
  induction l with
  | nil => simp at h
  | cons x t ih =>
      cases hx : x.1 == k
      · simp only [List.any_cons, hx, Bool.false_or] at h
        simp [pyLookup_cons, hx, ih h]
      · simp [pyLookup_cons, hx]

theorem pyLookup_map_set_other (l : List (α × β)) (k k2 : α) (v : β)
    (hne : (k == k2) = false) :
    pyLookup (l.map (fun kv => if kv.1 == k then (k, v) else kv)) k2 = pyLookup l k2 := by
  induction l with
  | nil => rfl
  | cons x t ih =>
      cases hx : x.1 == k
      · simp [pyLookup_cons, hx, ih]
      · have hx2 : (x.1 == k2) = false := by
          have : x.1 = k := eq_of_beq hx
          rw [this]; exact hne
        simp [pyLookup_cons, hx, hx2, hne, ih]

theorem pyLookup_pySet_same (l : List (α × β)) (k : α) (v : β) :
    pyLookup (pySet l k v) k = some v := by
  unfold pySet
  split
  · exact pyLookup_map_set l k v (by assumption)
  · rename_i hany
    rw [Bool.not_eq_true] at hany
    simp [pyLookup_append, pyLookup_eq_none l k hany, pyLookup_cons]

theorem pyLookup_pySet_other (l : List (α × β)) (k k2 : α) (v : β)
    (hne : (k == k2) = false) :
    pyLookup (pySet l k v) k2 = pyLookup l k2 := by
  unfold pySet
  split
  · exact pyLookup_map_set_other l k k2 v hne
  · rw [pyLookup_append]
    cases h : pyLookup l k2
    · simp [pyLookup_cons, hne, pyLookup_nil]
    · simp

theorem pyLookup_pyUpdate_of_none (o : List (α × β)) (base : List (α × β)) (k : α)
    (h : pyLookup o k = none) : pyLookup (pyUpdate base o) k = pyLookup base k := by
  induction o generalizing base with
  | nil => rfl
  | cons x t ih =>
      rw [pyLookup_cons] at h
      cases hx : x.1 == k
      · rw [hx] at h
        simp only [Bool.false_eq_true, if_false] at h
        show pyLookup (pyUpdate (pySet base x.1 x.2) t) k = _
        rw [ih _ h]
        exact pyLookup_pySet_other base x.1 k x.2 hx
      · rw [hx] at h
        simp at h

theorem pyLookup_pyUpdate_of_some (o : List (α × β)) (base : List (α × β)) (k : α) (v : β)
    (hnd : (o.map Prod.fst).Nodup) (h : pyLookup o k = some v) :
    pyLookup (pyUpdate base o) k = some v := by
  induction o generalizing base with
  | nil => simp [pyLookup_nil] at h
  | cons x t ih =>
      rw [pyLookup_cons] at h
      simp only [List.map_cons, List.nodup_cons] at hnd
      cases hx : x.1 == k
      · rw [hx] at h
        simp only [Bool.false_eq_true, if_false] at h
        exact ih _ hnd.2 h
      · rw [hx] at h
        simp only [if_true] at h
        have hk : pyLookup t k = none := by
          apply pyLookup_eq_none
          rw [Bool.eq_false_iff]
          intro hc
          simp only [List.any_eq_true, beq_iff_eq] at hc
          obtain ⟨kv, hmem, hkv⟩ := hc
          have hxk : x.1 = k := eq_of_beq hx
          exact hnd.1 (hxk ▸ hkv ▸ List.mem_map_of_mem Prod.fst hmem)
        have hv : x.2 = v := Option.some.inj h
        show pyLookup (pyUpdate (pySet base x.1 x.2) t) k = _
        rw [pyLookup_pyUpdate_of_none _ _ _ hk, eq_of_beq hx, hv, pyLookup_pySet_same]

end DictLemmas

/-! ## C4: override precedence in the Request Builder -/

/-- A definition with a url and two headers, for exercising the builder. -/
def cfgBaseA : WebhookConfig :=
  { url := some "base-url", headers := some [("A", "1"), ("B", "2")] }

/-- Overrides supplying an empty-string url (a legal `str` argument of
`execute`). -/
def ovrEmptyUrl : Overrides := { url := some "" }

/-- Overrides replacing url/payload/timeout and merging headers. -/
def ovrFull : Overrides :=
  { url := some "other-url", headers := some [("B", "9"), ("C", "3")],
    payload := .num 7, timeout := some 5 }

/-- C4 counterexample: the claim says a supplied url override replaces the
definition's url entirely, but `url_override or config.get(...)` is Python
truthiness — an empty-string override falls back to the definition. -/
theorem c4_counterexample_empty_url :
    ovrEmptyUrl.url = some "" ∧
    (buildRequest cfgBaseA ovrEmptyUrl).url = some "base-url" ∧
    (buildRequest cfgBaseA ovrEmptyUrl).url ≠ ovrEmptyUrl.url := by
  refine ⟨rfl, ?_, ?_⟩ <;> simp [buildRequest, cfgBaseA, ovrEmptyUrl]

/-- C4 (amended): a supplied non-empty url override and nonzero timeout
override replace the definition's fields; empty-string url and zero
timeout overrides fall back (Python truthiness); a non-null payload
override replaces the payload entirely; a supplied non-empty headers
override is shallow-merged — override keys win, other definition keys
are kept. -/
theorem c4_override_precedence (cfg : WebhookConfig) (ovr : Overrides) :
    (∀ u, ovr.url = some u → u ≠ "" → (buildRequest cfg ovr).url = some u)
  ∧ ((ovr.url = none ∨ ovr.url = some "") → (buildRequest cfg ovr).url = cfg.url)
  ∧ (∀ p, ovr.payload = p → p ≠ Json.null → (buildRequest cfg ovr).payload = p)
  ∧ (ovr.payload = Json.null → (buildRequest cfg ovr).payload = cfg.payload)
  ∧ (∀ t, ovr.timeout = some t → t ≠ 0 → (buildRequest cfg ovr).timeout = t)
  ∧ (∀ o, ovr.headers = some o → o.isEmpty = false → (o.map Prod.fst).Nodup →
      ∀ k, pyLookup (buildRequest cfg ovr).headers k =
        match pyLookup o k with
        | some v => some v
        | none => pyLookup (cfg.headers.getD []) k)
  ∧ (ovr.headers = none → (buildRequest cfg ovr).headers = cfg.headers.getD []) := by
  refine ⟨?_, ?_, ?_, ?_, ?_, ?_, ?_⟩
  · intro u hu hne
    simp [buildRequest, hu, hne]
  · rintro (h | h) <;> simp [buildRequest, h]
  · intro p hp hne
    simp only [buildRequest]
    rw [hp]
    cases p <;> simp_all
  · intro hp
    simp [buildRequest, hp]
  · intro t ht hne
    simp [buildRequest, ht, hne]
  · intro o ho hne hnd k
    simp only [buildRequest, ho, hne, Bool.false_eq_true, if_false]
    cases h : pyLookup o k
    · exact pyLookup_pyUpdate_of_none o _ k h
    · exact pyLookup_pyUpdate_of_some o _ k _ hnd h
  · intro ho
    simp [buildRequest, ho]

/-- C4 witness: the spec's own merge example — base headers A=1, B=2 with
override B=9, C=3 yields A=1, B=9, C=3 — plus whole-value replacement of
url, payload and timeout. -/
theorem c4_witness :
    (buildRequest cfgBaseA ovrFull).url = some "other-url" ∧
    (buildRequest cfgBaseA ovrFull).payload = Json.num 7 ∧
    (buildRequest cfgBaseA ovrFull).timeout = 5 ∧
    pyLookup (buildRequest cfgBaseA ovrFull).headers "A" = some "1" ∧
    pyLookup (buildRequest cfgBaseA ovrFull).headers "B" = some "9" ∧
    pyLookup (buildRequest cfgBaseA ovrFull).headers "C" = some "3" := by
  obtain ⟨hu, -, hp, -, ht, hh, -⟩ := c4_override_precedence cfgBaseA ovrFull
  refine ⟨hu "other-url" rfl (by decide), hp (Json.num 7) rfl (by decide),
    ht 5 rfl (by decide), ?_, ?_, ?_⟩
  · rw [hh [("B", "9"), ("C", "3")] rfl (by decide) (by decide) "A"]
    rfl
  · rw [hh [("B", "9"), ("C", "3")] rfl (by decide) (by decide) "B"]
    rfl
  · rw [hh [("B", "9"), ("C", "3")] rfl (by decide) (by decide) "C"]
    rfl

/-! ## C8, C9: the payload renderer -/

theorem exceptOk_bind {α β γ : Type} (a : α) (f : α → Except γ β) :
    (Except.ok a >>= f) = f a := rfl

theorem exceptErr_bind {α β γ : Type} (e : γ) (f : α → Except γ β) :
    ((Except.error e : Except γ α) >>= f) = .error e := rfl

theorem renderItems_ok (r : String → Except String String) (pj : String → Option Json) :
    ∀ (xs ys : List Json), renderItems r pj xs = .ok ys →
      ys.length = xs.length ∧
      ∀ i (h1 : i < xs.length) (h2 : i < ys.length),
        renderPayload r pj (xs.get ⟨i, h1⟩) = .ok (ys.get ⟨i, h2⟩) := by
  intro xs
  induction xs with
  | nil =>
      intro ys h
      simp only [renderItems] at h
      cases h
      simp
  | cons x t ih =>
      intro ys h
      simp only [renderItems] at h
      cases hx : renderPayload r pj x with
      | error e => rw [hx] at h; rw [exceptErr_bind] at h; cases h
      | ok x1 =>
          rw [hx] at h
          rw [exceptOk_bind] at h
          cases ht : renderItems r pj t with
          | error e => rw [ht] at h; rw [exceptErr_bind] at h; cases h
          | ok t1 =>
              rw [ht] at h
              rw [exceptOk_bind] at h
              cases h
              obtain ⟨hlen, hidx⟩ := ih t1 ht
              refine ⟨by simp [hlen], ?_⟩
              intro i h1 h2
              cases i with
              | zero => simpa using hx
              | succ n =>
                  simpa using hidx n (by simpa using h1) (by simpa using h2)

theorem renderPairs_ok (r : String → Except String String) (pj : String → Option Json) :
    ∀ (kvs kvs2 : List (String × Json)), renderPairs r pj kvs = .ok kvs2 →
      kvs2.map Prod.fst = kvs.map Prod.fst ∧
      ∀ i (h1 : i < kvs.length) (h2 : i < kvs2.length),
        renderPayload r pj (kvs.get ⟨i, h1⟩).2 = .ok ((kvs2.get ⟨i, h2⟩).2) := by
  intro kvs
  induction kvs with
  | nil =>
      intro kvs2 h
      simp only [renderPairs] at h
      cases h
      simp
  | cons x t ih =>
      intro kvs2 h
      obtain ⟨k, v⟩ := x
      simp only [renderPairs] at h
      cases hx : renderPayload r pj v with
      | error e => rw [hx] at h; rw [exceptErr_bind] at h; cases h
      | ok v1 =>
          rw [hx] at h
          rw [exceptOk_bind] at h
          cases ht : renderPairs r pj t with
          | error e => rw [ht] at h; rw [exceptErr_bind] at h; cases h
          | ok t1 =>
              rw [ht] at h
              rw [exceptOk_bind] at h
              cases h
              obtain ⟨hkeys, hidx⟩ := ih t1 ht
              refine ⟨by simp [hkeys], ?_⟩
              intro i h1 h2
              cases i with
              | zero => simpa using hx
              | succ n =>
                  simpa using hidx n (by simpa using h1) (by simpa using h2)

/-- C8: `render_payload` is the identity on non-string leaves (None,
booleans, numbers); on a list it succeeds only with a list of the same
length whose elements are the rendered originals, in order; on a dict it
succeeds only with a dict carrying exactly the same keys in the same
order, each value the rendered original. -/
theorem c8_render_payload_structure (r : String → Except String String)
    (pj : String → Option Json) :
    (renderPayload r pj .null = .ok .null)
  ∧ (∀ b, renderPayload r pj (.bool b) = .ok (.bool b))
  ∧ (∀ n, renderPayload r pj (.num n) = .ok (.num n))
  ∧ (∀ xs v, renderPayload r pj (.arr xs) = .ok v →
      ∃ ys, v = .arr ys ∧ ys.length = xs.length ∧
        ∀ i (h1 : i < xs.length) (h2 : i < ys.length),
          renderPayload r pj (xs.get ⟨i, h1⟩) = .ok (ys.get ⟨i, h2⟩))
  ∧ (∀ kvs v, renderPayload r pj (.obj kvs) = .ok v →
      ∃ kvs2, v = .obj kvs2 ∧ kvs2.map Prod.fst = kvs.map Prod.fst ∧
        ∀ i (h1 : i < kvs.length) (h2 : i < kvs2.length),
          renderPayload r pj (kvs.get ⟨i, h1⟩).2 = .ok ((kvs2.get ⟨i, h2⟩).2)) := by
  refine ⟨rfl, fun b => rfl, fun n => rfl, ?_, ?_⟩
  · intro xs v h
    simp only [renderPayload] at h
    cases hi : renderItems r pj xs with
    | error e => rw [hi] at h; rw [exceptErr_bind] at h; cases h
    | ok ys =>
        rw [hi] at h
        rw [exceptOk_bind] at h
        cases h
        exact ⟨ys, rfl, renderItems_ok r pj xs ys hi⟩
  · intro kvs v h
    simp only [renderPayload] at h
    cases hi : renderPairs r pj kvs with
    | error e => rw [hi] at h; rw [exceptErr_bind] at h; cases h
    | ok kvs2 =>
        rw [hi] at h
        rw [exceptOk_bind] at h
        cases h
        exact ⟨kvs2, rfl, renderPairs_ok r pj kvs kvs2 hi⟩

/-- A template engine oracle that renders everything to itself. -/
def identityEngine : String → Except String String := fun s => .ok s

/-- A JSON-parse oracle that always fails. -/
def failingParse : String → Option Json := fun _ => none

/-- A template engine oracle that renders everything to `"2"`. -/
def twoEngine : String → Except String String := fun _ => .ok "2"

/-- C8 witness: the list conjunct of `c8_render_payload_structure` at the
concrete payload `["hi", 4]` under the identity engine. -/
theorem c8_witness :
    ∃ ys, Json.arr [Json.str "hi", Json.num 4] = Json.arr ys ∧
      ys.length = [Json.str "hi", Json.num 4].length ∧
      ∀ i (h1 : i < [Json.str "hi", Json.num 4].length) (h2 : i < ys.length),
        renderPayload identityEngine failingParse ([Json.str "hi", Json.num 4].get ⟨i, h1⟩) =
          .ok (ys.get ⟨i, h2⟩) :=
  (c8_render_payload_structure identityEngine failingParse).2.2.2.1
    [Json.str "hi", Json.num 4] (Json.arr [Json.str "hi", Json.num 4]) rfl

/-- C9: for a string payload the renderer re-interprets the rendered
result as JSON exactly when its leading non-whitespace character is an
opening brace or bracket: then a strict parse is attempted and the
parsed structure substituted, a parse failure keeping the rendered
string (not an error); otherwise the rendered string is kept as-is. -/
theorem c9_string_reinterpretation (r : String → Except String String)
    (pj : String → Option Json) (s t : String) (h : renderTemplate r s = .ok t) :
    (leadingBracket t = false → renderPayload r pj (.str s) = .ok (.str t))
  ∧ (∀ v, leadingBracket t = true → pj t = some v → renderPayload r pj (.str s) = .ok v)
  ∧ (leadingBracket t = true → pj t = none → renderPayload r pj (.str s) = .ok (.str t)) := by
  refine ⟨?_, ?_, ?_⟩
  · intro hb
    simp only [renderPayload, h, exceptOk_bind]
    simp [hb]
  · intro v hb hp
    simp only [renderPayload, h, exceptOk_bind]
    simp [hb, hp]
  · intro hb hp
    simp only [renderPayload, h, exceptOk_bind]
    simp [hb, hp]

/-- C9 witness: rendering `"\x7b\x7b 1+1 \x7d\x7d"` to `"2"` — the result
does not lead with a brace or bracket, so it stays the string `"2"`,
never the number 2. -/
theorem c9_witness :
    renderTemplate twoEngine "\x7b\x7b 1+1 \x7d\x7d" = .ok "2" ∧
    leadingBracket "2" = false ∧
    renderPayload twoEngine failingParse (.str "\x7b\x7b 1+1 \x7d\x7d") = .ok (.str "2") :=
  ⟨rfl, by decide,
   (c9_string_reinterpretation twoEngine failingParse "\x7b\x7b 1+1 \x7d\x7d" "2" rfl).1
     (by decide)⟩

/-! ## Retry-loop lemmas (C1, C3, C5, C6, C10) -/

/-- The trace segment of one retryable failure at attempt index `i`
followed by its backoff sleep, iterated `k` times. -/
def failSeg (u : Option String) (method : String) (hs : List (String × String))
    (p : Json) (bo : Int) : Nat → Nat → List Effect
  | _, 0 => []
  | i, k + 1 =>
      .request u method hs p :: .sleep (bo ^ i) :: failSeg u method hs p bo (i + 1) k

section RetryLoop

variable (T : Nat → TransportOutcome) (wid : String) (u : Option String)
  (method : String) (hs : List (String × String)) (p : Json) (bo ra : Int)

theorem execLoop_ok (fuel i : Nat) (le : Option (String × String)) (r : RespData)
    (h : T i = .ok r) :
    execLoop T wid u method hs p bo ra (fuel + 1) i le =
      ([.request u method hs p, .fireSuccess wid r.status_code ((i : Int) + 1)],
       .ok (some r)) := by
  simp [execLoop, h]

theorem execLoop_httpAbort (fuel i : Nat) (le : Option (String × String)) (s : Nat)
    (m : String) (h : T i = .httpError s m) (h4 : 400 ≤ s ∧ s < 500 ∧ s ≠ 429) :
    execLoop T wid u method hs p bo ra (fuel + 1) i le =
      ([.request u method hs p,
        .fireError wid ERROR_HTTP ("HTTP " ++ toString s ++ ": " ++ m) ((i : Int) + 1) (some s)],
       .error (.clientResponseError s m)) := by
  simp [execLoop, h, h4]

theorem execLoop_retryStep (fuel i : Nat) (le : Option (String × String))
    (h : retryableFail (T i) = true) :
    execLoop T wid u method hs p bo ra (fuel + 1) i le =
      (.request u method hs p ::
        ((if fuel = 0 then [] else [Effect.sleep (bo ^ i)]) ++
          (execLoop T wid u method hs p bo ra fuel (i + 1) (some (outcomeErrInfo (T i)))).1),
       (execLoop T wid u method hs p bo ra fuel (i + 1) (some (outcomeErrInfo (T i)))).2) := by
  cases ho : T i with
  | ok r => rw [ho] at h; simp [retryableFail] at h
  | connError m => simp [execLoop, ho, outcomeErrInfo]
  | timeoutErr m => simp [execLoop, ho, outcomeErrInfo]
  | otherErr m => simp [execLoop, ho, outcomeErrInfo]
  | httpError s m =>
      rw [ho] at h
      have hc : ¬(400 ≤ s ∧ s < 500 ∧ s ≠ 429) := by
        simp only [retryableFail, Bool.or_eq_true, beq_iff_eq, Bool.not_eq_eq_eq_not,
          Bool.not_true, Bool.and_eq_false_iff, decide_eq_false_iff_not, not_le, not_lt] at h
        rcases h with h | h | h
        · omega
        · omega
        · omega
      simp only [execLoop, ho, outcomeErrInfo, if_neg hc]

theorem execLoop_exhausted (i : Nat) (q : String × String) :
    execLoop T wid u method hs p bo ra 0 i (some q) =
      ([.fireError wid q.1 q.2 ra none],
       .error (.homeAssistantError
         ("Webhook " ++ wid ++ " failed after " ++ toString ra ++ " attempts: " ++ q.2))) := by
  obtain ⟨ty, msg⟩ := q
  rfl

theorem execLoop_empty (i : Nat) :
    execLoop T wid u method hs p bo ra 0 i none = ([], .ok none) := rfl

theorem failSeg_events (i k : Nat) : eventCount (failSeg u method hs p bo i k) = 0 := by
  induction k generalizing i with
  | zero => rfl
  | succ n ih =>
      have h := ih (i + 1)
      simp only [eventCount] at h ⊢
      simp only [failSeg, List.countP_cons, h, isEvent]
      rfl

theorem failSeg_requests (i k : Nat) : requestCount (failSeg u method hs p bo i k) = k := by
  induction k generalizing i with
  | zero => rfl
  | succ n ih =>
      have h := ih (i + 1)
      simp only [requestCount] at h ⊢
      simp only [failSeg, List.countP_cons, h, isRequest]
      simp

theorem failSeg_renders (i k : Nat) : renderCount (failSeg u method hs p bo i k) = 0 := by
  induction k generalizing i with
  | zero => rfl
  | succ n ih =>
      have h := ih (i + 1)
      simp only [renderCount] at h ⊢
      simp only [failSeg, List.countP_cons, h, isRender]
      rfl

theorem failSeg_sleeps (i k : Nat) :
    sleeps (failSeg u method hs p bo i k) = (List.range k).map (fun j => bo ^ (i + j)) := by
  induction k generalizing i with
  | zero => rfl
  | succ n ih =>
      have h := ih (i + 1)
      simp only [sleeps] at h ⊢
      simp only [failSeg, List.filterMap_cons, h]
      rw [List.range_succ_eq_map, List.map_cons, List.map_map]
      have hf : ((fun j => bo ^ (i + j)) ∘ fun j => j + 1) = fun j => bo ^ (i + 1 + j) := by
        funext j
        simp only [Function.comp]
        congr 1
        omega
      rw [hf]
      simp

theorem failSeg_mem (i k : Nat) (e : Effect) (he : e ∈ failSeg u method hs p bo i k) :
    e = .request u method hs p ∨ ∃ d, e = .sleep d := by
  induction k generalizing i with
  | zero => cases he
  | succ n ih =>
      simp only [failSeg, List.mem_cons] at he
      rcases he with rfl | rfl | he
      · exact Or.inl rfl
      · exact Or.inr ⟨bo ^ i, rfl⟩
      · exact ih (i + 1) he

theorem execLoop_success_at : ∀ (k fuel i : Nat) (le : Option (String × String)) (r : RespData),
    (∀ j, j < k → retryableFail (T (i + j)) = true) → T (i + k) = .ok r → k < fuel →
    execLoop T wid u method hs p bo ra fuel i le =
      (failSeg u method hs p bo i k ++
        [.request u method hs p, .fireSuccess wid r.status_code (((i + k : Nat) : Int) + 1)],
       .ok (some r)) := by
  intro k
  induction k with
  | zero =>
      intro fuel i le r hf hok hlt
      obtain ⟨f, rfl⟩ : ∃ f, fuel = f + 1 := ⟨fuel - 1, by omega⟩
      rw [execLoop_ok T wid u method hs p bo ra f i le r (by simpa using hok)]
      simp [failSeg]
  | succ n ih =>
      intro fuel i le r hf hok hlt
      obtain ⟨f, rfl⟩ : ∃ f, fuel = f + 1 := ⟨fuel - 1, by omega⟩
      rw [execLoop_retryStep T wid u method hs p bo ra f i le (by simpa using hf 0 (by omega))]
      rw [if_neg (by omega)]
      have ihres := ih f (i + 1) (some (outcomeErrInfo (T i))) r ?_ ?_ ?_
      · rw [ihres]
        have hidx : i + 1 + n = i + (n + 1) := by omega
        simp [failSeg, hidx]
      · intro j hj
        have h2 := hf (j + 1) (by omega)
        rw [show i + (j + 1) = i + 1 + j by omega] at h2
        exact h2
      · rw [show i + 1 + n = i + (n + 1) by omega]
        exact hok
      · omega

theorem execLoop_httpAbort_at : ∀ (k fuel i : Nat) (le : Option (String × String))
    (s : Nat) (m : String),
    (∀ j, j < k → retryableFail (T (i + j)) = true) → T (i + k) = .httpError s m →
    400 ≤ s ∧ s < 500 ∧ s ≠ 429 → k < fuel →
    execLoop T wid u method hs p bo ra fuel i le =
      (failSeg u method hs p bo i k ++
        [.request u method hs p,
         .fireError wid ERROR_HTTP ("HTTP " ++ toString s ++ ": " ++ m)
           (((i + k : Nat) : Int) + 1) (some s)],
       .error (.clientResponseError s m)) := by
  intro k
  induction k with
  | zero =>
      intro fuel i le s m hf hok h4 hlt
      obtain ⟨f, rfl⟩ : ∃ f, fuel = f + 1 := ⟨fuel - 1, by omega⟩
      rw [execLoop_httpAbort T wid u method hs p bo ra f i le s m (by simpa using hok) h4]
      simp [failSeg]
  | succ n ih =>
      intro fuel i le s m hf hok h4 hlt
      obtain ⟨f, rfl⟩ : ∃ f, fuel = f + 1 := ⟨fuel - 1, by omega⟩
      rw [execLoop_retryStep T wid u method hs p bo ra f i le (by simpa using hf 0 (by omega))]
      rw [if_neg (by omega)]
      have ihres := ih f (i + 1) (some (outcomeErrInfo (T i))) s m ?_ ?_ h4 ?_
      · rw [ihres]
        have hidx : i + 1 + n = i + (n + 1) := by omega
        simp [failSeg, hidx]
      · intro j hj
        have h2 := hf (j + 1) (by omega)
        rw [show i + (j + 1) = i + 1 + j by omega] at h2
        exact h2
      · rw [show i + 1 + n = i + (n + 1) by omega]
        exact hok
      · omega

theorem execLoop_exhaust_all : ∀ (fuel : Nat), 1 ≤ fuel → ∀ (i : Nat) (le : Option (String × String)),
    (∀ j, j < fuel → retryableFail (T (i + j)) = true) →
    execLoop T wid u method hs p bo ra fuel i le =
      (failSeg u method hs p bo i (fuel - 1) ++
        [.request u method hs p,
         .fireError wid (outcomeErrInfo (T (i + (fuel - 1)))).1
           (outcomeErrInfo (T (i + (fuel - 1)))).2 ra none],
       .error (.homeAssistantError
         ("Webhook " ++ wid ++ " failed after " ++ toString ra ++ " attempts: " ++
           (outcomeErrInfo (T (i + (fuel - 1)))).2))) := by
  intro fuel
  induction fuel with
  | zero => omega
  | succ f ih =>
      intro _ i le hf
      rw [execLoop_retryStep T wid u method hs p bo ra f i le (by simpa using hf 0 (by omega))]
      rcases Nat.eq_zero_or_pos f with hf0 | hf0
      · subst hf0
        rw [if_pos rfl]
        rw [execLoop_exhausted]
        simp [failSeg]
      · obtain ⟨f2, rfl⟩ : ∃ f2, f = f2 + 1 := ⟨f - 1, by omega⟩
        rw [if_neg (by omega)]
        have ihres := ih (by omega) (i + 1) (some (outcomeErrInfo (T i))) ?_
        · rw [ihres]
          have hidx : i + 1 + (f2 + 1 - 1) = i + (f2 + 1 + 1 - 1) := by omega
          simp only [hidx]
          have hseg : failSeg u method hs p bo i (f2 + 1 + 1 - 1) =
              .request u method hs p :: Effect.sleep (bo ^ i) ::
                failSeg u method hs p bo (i + 1) (f2 + 1 - 1) := by
            simp [failSeg]
          rw [hseg]
          simp
        · intro j hj
          have h2 := hf (j + 1) (by omega)
          rw [show i + (j + 1) = i + 1 + j by omega] at h2
          exact h2

theorem execLoop_eventCount : ∀ (fuel : Nat), 1 ≤ fuel → ∀ (i : Nat) (le : Option (String × String)),
    eventCount (execLoop T wid u method hs p bo ra fuel i le).1 = 1 := by
  intro fuel
  induction fuel with
  | zero => omega
  | succ f ih =>
      intro _ i le
      by_cases hr : retryableFail (T i) = true
      · rw [execLoop_retryStep T wid u method hs p bo ra f i le hr]
        rcases Nat.eq_zero_or_pos f with hf0 | hf0
        · subst hf0
          rw [if_pos rfl]
          rw [execLoop_exhausted]
          rfl
        · rw [if_neg (by omega)]
          have hc := ih hf0 (i + 1) (some (outcomeErrInfo (T i)))
          simp only [eventCount] at hc ⊢
          simp [List.countP_cons, List.countP_append, isEvent, hc]
      · cases hT : T i with
        | ok r =>
            rw [execLoop_ok T wid u method hs p bo ra f i le r hT]
            rfl
        | httpError s m =>
            have h4 : 400 ≤ s ∧ s < 500 ∧ s ≠ 429 := by
              rw [hT] at hr
              simp only [retryableFail, Bool.or_eq_true, beq_iff_eq, Bool.not_eq_eq_eq_not,
                Bool.not_true, Bool.and_eq_false_iff, decide_eq_false_iff_not,
                not_le, not_lt] at hr
              push_neg at hr
              omega
            rw [execLoop_httpAbort T wid u method hs p bo ra f i le s m hT h4]
            rfl
        | connError m => rw [hT] at hr; simp [retryableFail] at hr
        | timeoutErr m => rw [hT] at hr; simp [retryableFail] at hr
        | otherErr m => rw [hT] at hr; simp [retryableFail] at hr

theorem execLoop_reqShape : ∀ (fuel i : Nat) (le : Option (String × String)) (e : Effect),
    e ∈ (execLoop T wid u method hs p bo ra fuel i le).1 →
    isRender e = false ∧ (isRequest e = true → e = .request u method hs p) := by
  intro fuel
  induction fuel with
  | zero =>
      intro i le e he
      cases le with
      | none => cases he
      | some q =>
          obtain ⟨ty, msg⟩ := q
          simp only [execLoop, List.mem_singleton] at he
          subst he
          exact ⟨rfl, by intro h; cases h⟩
  | succ f ih =>
      intro i le e he
      by_cases hr : retryableFail (T i) = true
      · rw [execLoop_retryStep T wid u method hs p bo ra f i le hr] at he
        simp only [List.mem_cons, List.mem_append] at he
        rcases he with rfl | he
        · exact ⟨rfl, fun _ => rfl⟩
        · rcases he with he | he
          · rcases Nat.eq_zero_or_pos f with hf0 | hf0
            · subst hf0
              simp at he
            · rw [if_neg (by omega)] at he
              simp only [List.mem_singleton] at he
              subst he
              exact ⟨rfl, by intro h; cases h⟩
          · exact ih (i + 1) (some (outcomeErrInfo (T i))) e he
      · cases hT : T i with
        | ok r =>
            rw [execLoop_ok T wid u method hs p bo ra f i le r hT] at he
            simp only [List.mem_cons, List.mem_singleton, List.not_mem_nil, or_false] at he
            rcases he with rfl | rfl
            · exact ⟨rfl, fun _ => rfl⟩
            · exact ⟨rfl, by intro h; cases h⟩
        | httpError s m =>
            have h4 : 400 ≤ s ∧ s < 500 ∧ s ≠ 429 := by
              rw [hT] at hr
              simp only [retryableFail, Bool.or_eq_true, beq_iff_eq, Bool.not_eq_eq_eq_not,
                Bool.not_true, Bool.and_eq_false_iff, decide_eq_false_iff_not,
                not_le, not_lt] at hr
              push_neg at hr
              omega
            rw [execLoop_httpAbort T wid u method hs p bo ra f i le s m hT h4] at he
            simp only [List.mem_cons, List.mem_singleton, List.not_mem_nil, or_false] at he
            rcases he with rfl | rfl
            · exact ⟨rfl, fun _ => rfl⟩
            · exact ⟨rfl, by intro h; cases h⟩
        | connError m => rw [hT] at hr; simp [retryableFail] at hr
        | timeoutErr m => rw [hT] at hr; simp [retryableFail] at hr
        | otherErr m => rw [hT] at hr; simp [retryableFail] at hr

theorem execLoop_requestCount_ge : ∀ (k fuel i : Nat) (le : Option (String × String)),
    k < fuel → (∀ j, j < k → retryableFail (T (i + j)) = true) →
    k + 1 ≤ requestCount (execLoop T wid u method hs p bo ra fuel i le).1 := by
  intro k
  induction k with
  | zero =>
      intro fuel i le hlt hf
      obtain ⟨f, rfl⟩ : ∃ f, fuel = f + 1 := ⟨fuel - 1, by omega⟩
      by_cases hr : retryableFail (T i) = true
      · rw [execLoop_retryStep T wid u method hs p bo ra f i le hr]
        simp [requestCount, List.countP_cons, isRequest]
      · cases hT : T i with
        | ok r =>
            rw [execLoop_ok T wid u method hs p bo ra f i le r hT]
            simp [requestCount, List.countP_cons, isRequest]
        | httpError s m =>
            have h4 : 400 ≤ s ∧ s < 500 ∧ s ≠ 429 := by
              rw [hT] at hr
              simp only [retryableFail, Bool.or_eq_true, beq_iff_eq, Bool.not_eq_eq_eq_not,
                Bool.not_true, Bool.and_eq_false_iff, decide_eq_false_iff_not,
                not_le, not_lt] at hr
              push_neg at hr
              omega
            rw [execLoop_httpAbort T wid u method hs p bo ra f i le s m hT h4]
            simp [requestCount, List.countP_cons, isRequest]
        | connError m => rw [hT] at hr; simp [retryableFail] at hr
        | timeoutErr m => rw [hT] at hr; simp [retryableFail] at hr
        | otherErr m => rw [hT] at hr; simp [retryableFail] at hr
  | succ n ih =>
      intro fuel i le hlt hf
      obtain ⟨f, rfl⟩ : ∃ f, fuel = f + 1 := ⟨fuel - 1, by omega⟩
      rw [execLoop_retryStep T wid u method hs p bo ra f i le (by simpa using hf 0 (by omega))]
      have hrec := ih f (i + 1) (some (outcomeErrInfo (T i))) (by omega) ?_
      · rw [if_neg (by omega)]
        simp only [requestCount] at hrec ⊢
        simp [List.countP_cons, List.countP_append, isRequest]
        omega
      · intro j hj
        have h2 := hf (j + 1) (by omega)
        rw [show i + (j + 1) = i + 1 + j by omega] at h2
        exact h2

end RetryLoop

/-! ## Execute-level lemmas and claims C1, C3, C5, C6, C10 -/

theorem execute_render_ok (env : ExecEnv) (cfg : WebhookConfig) (ovr : Overrides)
    (u2 : Option String) (hs2 : List (String × String)) (p2 : Json)
    (hr : renderAll env.render env.parseJson (buildRequest cfg ovr).url
      (buildRequest cfg ovr).headers (buildRequest cfg ovr).payload = .ok (u2, hs2, p2)) :
    execute env cfg ovr =
      (Effect.renderPass u2 hs2 p2 ::
        (execLoop env.transport (buildRequest cfg ovr).webhookId u2
          (buildRequest cfg ovr).method hs2 p2 (buildRequest cfg ovr).retryBackoff
          (buildRequest cfg ovr).retryAttempts (buildRequest cfg ovr).retryAttempts.toNat
          0 none).1,
       (execLoop env.transport (buildRequest cfg ovr).webhookId u2
          (buildRequest cfg ovr).method hs2 p2 (buildRequest cfg ovr).retryBackoff
          (buildRequest cfg ovr).retryAttempts (buildRequest cfg ovr).retryAttempts.toNat
          0 none).2) := by
  simp only [execute, hr]

theorem execute_render_err (env : ExecEnv) (cfg : WebhookConfig) (ovr : Overrides)
    (msg : String)
    (hr : renderAll env.render env.parseJson (buildRequest cfg ovr).url
      (buildRequest cfg ovr).headers (buildRequest cfg ovr).payload = .error msg) :
    execute env cfg ovr =
      ([.fireError (buildRequest cfg ovr).webhookId ERROR_TEMPLATE msg 0 none],
       .error (.templateError msg)) := by
  simp only [execute, hr]

/-- With at least one attempt budgeted, `execute` fires exactly one bus
event whatever the oracles do. -/
theorem execute_eventCount (env : ExecEnv) (cfg : WebhookConfig) (ovr : Overrides)
    (h1 : 1 ≤ (buildRequest cfg ovr).retryAttempts.toNat) :
    eventCount (execute env cfg ovr).1 = 1 := by
  cases hr : renderAll env.render env.parseJson (buildRequest cfg ovr).url
      (buildRequest cfg ovr).headers (buildRequest cfg ovr).payload with
  | error msg => rw [execute_render_err env cfg ovr msg hr]; rfl
  | ok t =>
      obtain ⟨u2, hs2, p2⟩ := t
      rw [execute_render_ok env cfg ovr u2 hs2 p2 hr]
      have h := execLoop_eventCount env.transport (buildRequest cfg ovr).webhookId u2
        (buildRequest cfg ovr).method hs2 p2 (buildRequest cfg ovr).retryBackoff
        (buildRequest cfg ovr).retryAttempts (buildRequest cfg ovr).retryAttempts.toNat h1
        0 none
      simp only [eventCount] at h ⊢
      simp [List.countP_cons, isEvent, h]

/-- C1 (amended): templates are rendered exactly once per `execute` call,
before the first attempt; every attempt's request reuses the same
rendered url, headers and payload from that single pass. -/
theorem c1_render_once (env : ExecEnv) (cfg : WebhookConfig) (ovr : Overrides)
    (u2 : Option String) (hs2 : List (String × String)) (p2 : Json)
    (hr : renderAll env.render env.parseJson (buildRequest cfg ovr).url
      (buildRequest cfg ovr).headers (buildRequest cfg ovr).payload = .ok (u2, hs2, p2)) :
    renderCount (execute env cfg ovr).1 = 1 ∧
    (execute env cfg ovr).1.head? = some (.renderPass u2 hs2 p2) ∧
    ∀ e ∈ (execute env cfg ovr).1, isRequest e = true →
      e = .request u2 (buildRequest cfg ovr).method hs2 p2 := by
  rw [execute_render_ok env cfg ovr u2 hs2 p2 hr]
  refine ⟨?_, rfl, ?_⟩
  · have hz : renderCount (execLoop env.transport (buildRequest cfg ovr).webhookId u2
        (buildRequest cfg ovr).method hs2 p2 (buildRequest cfg ovr).retryBackoff
        (buildRequest cfg ovr).retryAttempts (buildRequest cfg ovr).retryAttempts.toNat
        0 none).1 = 0 := by
      simp only [renderCount]
      rw [List.countP_eq_zero]
      intro e he
      rw [Bool.not_eq_true]
      exact (execLoop_reqShape env.transport (buildRequest cfg ovr).webhookId u2
        (buildRequest cfg ovr).method hs2 p2 (buildRequest cfg ovr).retryBackoff
        (buildRequest cfg ovr).retryAttempts
        (buildRequest cfg ovr).retryAttempts.toNat 0 none e he).1
    simp only [renderCount] at hz ⊢
    simp [List.countP_cons, isRender, hz]
  · intro e he hq
    simp only [List.mem_cons] at he
    rcases he with rfl | he
    · cases hq
    · exact (execLoop_reqShape env.transport (buildRequest cfg ovr).webhookId u2
        (buildRequest cfg ovr).method hs2 p2 (buildRequest cfg ovr).retryBackoff
        (buildRequest cfg ovr).retryAttempts
        (buildRequest cfg ovr).retryAttempts.toNat 0 none e he).2 hq

/-- Oracles for the C1 counterexample: the engine renders to `"A"`, the
network refuses every attempt. -/
def envRetryTwice : ExecEnv :=
  { render := fun _ => .ok "A", parseJson := fun _ => none,
    transport := fun _ => .connError "down" }

/-- A webhook whose url is a template, with two attempts budgeted. -/
def cfgRetryTwice : WebhookConfig :=
  { webhook_id := some "w1", url := some "\x7b\x7b u \x7d\x7d",
    retry_attempts := some 2, retry_backoff := some 2 }

/-- C1 counterexample: with `retry_attempts = 2` and a retryable failure
on attempt 1, the claim demands a fresh render pass per attempt (at
least as many render passes as requests); the code renders once before
the loop, so the trace has one render pass and two requests. -/
theorem c1_counterexample_single_render :
    renderCount (execute envRetryTwice cfgRetryTwice {}).1 = 1 ∧
    requestCount (execute envRetryTwice cfgRetryTwice {}).1 = 2 ∧
    renderCount (execute envRetryTwice cfgRetryTwice {}).1 <
      requestCount (execute envRetryTwice cfgRetryTwice {}).1 := by
  refine ⟨?_, ?_, ?_⟩ <;> decide

/-- C1 witness: the amended theorem at the concrete two-attempt
environment — one render pass heads the trace and both requests carry
its rendered url. -/
theorem c1_witness :
    renderCount (execute envRetryTwice cfgRetryTwice {}).1 = 1 ∧
    (execute envRetryTwice cfgRetryTwice {}).1.head? =
      some (.renderPass (some "A") [] .null) ∧
    ∀ e ∈ (execute envRetryTwice cfgRetryTwice {}).1, isRequest e = true →
      e = .request (some "A") "POST" [] .null :=
  c1_render_once envRetryTwice cfgRetryTwice {} (some "A") [] .null rfl

/-- C10 (amended): when the configuration carries `retry_attempts ≤ 0`
and template rendering succeeds, the attempt loop body never runs:
`execute` returns `None` with no request issued, no event fired and no
exception raised.  (A failing template still fires one error event and
raises, even with `retry_attempts ≤ 0` — see the counterexample.) -/
theorem c10_zero_retries_silent (env : ExecEnv) (cfg : WebhookConfig) (ovr : Overrides)
    (u2 : Option String) (hs2 : List (String × String)) (p2 : Json)
    (hra : (buildRequest cfg ovr).retryAttempts ≤ 0)
    (hr : renderAll env.render env.parseJson (buildRequest cfg ovr).url
      (buildRequest cfg ovr).headers (buildRequest cfg ovr).payload = .ok (u2, hs2, p2)) :
    execute env cfg ovr = ([.renderPass u2 hs2 p2], .ok none) ∧
    requestCount (execute env cfg ovr).1 = 0 ∧
    eventCount (execute env cfg ovr).1 = 0 := by
  have h0 : (buildRequest cfg ovr).retryAttempts.toNat = 0 := by
    omega
  rw [execute_render_ok env cfg ovr u2 hs2 p2 hr, h0]
  exact ⟨rfl, rfl, rfl⟩

/-- Oracles for the C10 counterexample: the template engine always
raises. -/
def envBadTemplate : ExecEnv :=
  { render := fun _ => .error "boom", parseJson := fun _ => none,
    transport := fun _ => .connError "down" }

/-- A webhook with a template url and `retry_attempts = 0`. -/
def cfgZeroRetries : WebhookConfig :=
  { webhook_id := some "w0", url := some "\x7b\x7b u \x7d\x7d",
    retry_attempts := some 0 }

/-- C10 counterexample: with `retry_attempts = 0` but a failing template,
the call is not a silent no-op — one error event fires (attempt 0) and a
`TemplateError` propagates. -/
theorem c10_counterexample_template_failure :
    cfgZeroRetries.retry_attempts = some 0 ∧
    eventCount (execute envBadTemplate cfgZeroRetries {}).1 = 1 ∧
    (execute envBadTemplate cfgZeroRetries {}).2 = .error (.templateError "boom") :=
  ⟨rfl, rfl, rfl⟩

/-- A trivial environment whose engine is the identity and whose network
always succeeds with status 200. -/
def envAlwaysOk : ExecEnv :=
  { render := fun s => .ok s, parseJson := fun _ => none,
    transport := fun _ => .ok { status_code := 200 } }

/-- C10 witness: the amended theorem at a concrete `retry_attempts = 0`
configuration with rendering succeeding. -/
theorem c10_witness :
    execute envAlwaysOk cfgZeroRetries {} =
      ([.renderPass (some "\x7b\x7b u \x7d\x7d") [] .null], .ok none) ∧
    requestCount (execute envAlwaysOk cfgZeroRetries {}).1 = 0 ∧
    eventCount (execute envAlwaysOk cfgZeroRetries {}).1 = 0 :=
  c10_zero_retries_silent envAlwaysOk cfgZeroRetries {}
    (some "\x7b\x7b u \x7d\x7d") [] .null (by decide) rfl

/-- C3 (amended): with at least one attempt budgeted, every terminal
outcome of a resolved call — success, template failure, non-retryable
HTTP error, or retry exhaustion — fires exactly one event; an unknown
webhook identifier, however, raises `HomeAssistantError` immediately
with no event fired at all. -/
theorem c3_one_event_per_outcome (env : ExecEnv) (resolve : String → Option WebhookConfig)
    (wid : String) (ovr : Overrides) :
    (resolve wid = none →
      handleWebhookCall env resolve wid ovr =
        ([], .error (.homeAssistantError ("Webhook \x27" ++ wid ++ "\x27 not found"))) ∧
      eventCount (handleWebhookCall env resolve wid ovr).1 = 0)
  ∧ (∀ cfg, resolve wid = some cfg → 1 ≤ (buildRequest cfg ovr).retryAttempts.toNat →
      eventCount (handleWebhookCall env resolve wid ovr).1 = 1) := by
  constructor
  · intro hn
    constructor
    · simp [handleWebhookCall, hn]
    · simp [handleWebhookCall, hn, eventCount]
  · intro cfg hc h1
    have hev := execute_eventCount env cfg ovr h1
    simp only [handleWebhookCall, hc]
    cases h2 : (execute env cfg ovr).2 with
    | ok v => simpa using hev
    | error e => simpa using hev

/-- The Config Resolver oracle of a host with no webhooks at all. -/
def emptyResolver : String → Option WebhookConfig := fun _ => none

/-- C3 counterexample: an unknown webhook identifier is a terminal
outcome (NotFound) of the call operation, yet the service handler raises
before any event can fire — zero events, not exactly one. -/
theorem c3_counterexample_notfound :
    (handleWebhookCall envAlwaysOk emptyResolver "ghost" {}).1 = [] ∧
    eventCount (handleWebhookCall envAlwaysOk emptyResolver "ghost" {}).1 = 0 ∧
    (handleWebhookCall envAlwaysOk emptyResolver "ghost" {}).2 =
      .error (.homeAssistantError "Webhook \x27ghost\x27 not found") :=
  ⟨rfl, rfl, rfl⟩

/-- A resolver that knows one webhook, with three attempts budgeted. -/
def oneHookResolver : String → Option WebhookConfig :=
  fun _ => some { webhook_id := some "w6", url := some "u6",
                  retry_attempts := some 3, retry_backoff := some 2 }

/-- C3 witness: the amended theorem at concrete inputs — the NotFound
branch fires no event, a resolved success fires exactly one. -/
theorem c3_witness :
    eventCount (handleWebhookCall envAlwaysOk emptyResolver "ghost" {}).1 = 0 ∧
    eventCount (handleWebhookCall envAlwaysOk oneHookResolver "w6" {}).1 = 1 :=
  ⟨((c3_one_event_per_outcome envAlwaysOk emptyResolver "ghost" {}).1 rfl).2,
   (c3_one_event_per_outcome envAlwaysOk oneHookResolver "w6" {}).2
     { webhook_id := some "w6", url := some "u6",
       retry_attempts := some 3, retry_backoff := some 2 } rfl (by decide)⟩

/-- C5: after any run of retryable failures, an HTTP error with a 4xx
status other than 429 aborts on first occurrence — no further attempt,
exactly one event: an error event tagged with the attempt number and the
status code, and the `ClientResponseError` re-raised; an HTTP error with
status 429 or outside [400,500) is retryable instead — when budget
remains, a further attempt is issued. -/
theorem c5_http_4xx_aborts (env : ExecEnv) (cfg : WebhookConfig) (ovr : Overrides)
    (u2 : Option String) (hs2 : List (String × String)) (p2 : Json) (k s : Nat) (m : String)
    (hr : renderAll env.render env.parseJson (buildRequest cfg ovr).url
      (buildRequest cfg ovr).headers (buildRequest cfg ovr).payload = .ok (u2, hs2, p2))
    (hfail : ∀ j, j < k → retryableFail (env.transport j) = true)
    (hk : k < (buildRequest cfg ovr).retryAttempts.toNat)
    (ht : env.transport k = .httpError s m) :
    (400 ≤ s ∧ s < 500 ∧ s ≠ 429 →
      eventCount (execute env cfg ovr).1 = 1 ∧
      Effect.fireError (buildRequest cfg ovr).webhookId ERROR_HTTP
        ("HTTP " ++ toString s ++ ": " ++ m) ((k : Int) + 1) (some s) ∈
        (execute env cfg ovr).1 ∧
      requestCount (execute env cfg ovr).1 = k + 1 ∧
      (execute env cfg ovr).2 = .error (.clientResponseError s m))
  ∧ ((s = 429 ∨ ¬(400 ≤ s ∧ s < 500)) →
      k + 1 < (buildRequest cfg ovr).retryAttempts.toNat →
      k + 2 ≤ requestCount (execute env cfg ovr).1) := by
  constructor
  · intro h4
    rw [execute_render_ok env cfg ovr u2 hs2 p2 hr]
    rw [execLoop_httpAbort_at env.transport (buildRequest cfg ovr).webhookId u2
      (buildRequest cfg ovr).method hs2 p2 (buildRequest cfg ovr).retryBackoff
      (buildRequest cfg ovr).retryAttempts k (buildRequest cfg ovr).retryAttempts.toNat
      0 none s m (by simpa using hfail) (by simpa using ht) h4 hk]
    refine ⟨?_, ?_, ?_, rfl⟩
    · have h0 := failSeg_events u2 (buildRequest cfg ovr).method hs2 p2
        (buildRequest cfg ovr).retryBackoff 0 k
      simp only [eventCount] at h0 ⊢
      simp [List.countP_cons, List.countP_append, isEvent, h0]
    · simp [List.mem_cons, List.mem_append]
    · have h0 := failSeg_requests u2 (buildRequest cfg ovr).method hs2 p2
        (buildRequest cfg ovr).retryBackoff 0 k
      simp only [requestCount] at h0 ⊢
      simp [List.countP_cons, List.countP_append, isRequest, h0]
  · intro hret hk2
    rw [execute_render_ok env cfg ovr u2 hs2 p2 hr]
    have hkfail : ∀ j, j < k + 1 → retryableFail (env.transport (0 + j)) = true := by
      intro j hj
      rcases Nat.lt_or_ge j k with hjk | hjk
      · simpa using hfail j hjk
      · have hjeq : j = k := by omega
        subst hjeq
        rw [Nat.zero_add, ht]
        simp only [retryableFail, Bool.or_eq_true, beq_iff_eq, Bool.not_eq_eq_eq_not,
          Bool.not_true, Bool.and_eq_false_iff, decide_eq_false_iff_not, not_le, not_lt]
        rcases hret with h | h
        · exact Or.inl h
        · rcases Nat.lt_or_ge s 400 with h2 | h2
          · exact Or.inr (Or.inl h2)
          · exact Or.inr (Or.inr (by omega))
    have hge := execLoop_requestCount_ge env.transport (buildRequest cfg ovr).webhookId u2
      (buildRequest cfg ovr).method hs2 p2 (buildRequest cfg ovr).retryBackoff
      (buildRequest cfg ovr).retryAttempts (k + 1)
      (buildRequest cfg ovr).retryAttempts.toNat 0 none hk2 hkfail
    simp only [requestCount] at hge ⊢
    simp [List.countP_cons, isRequest]
    omega

/-- C6: between a retryable failure on (1-based) attempt k and attempt
k+1 the controller sleeps `retry_backoff ** (k-1)` seconds — the sleep
schedule of a run with k leading retryable failures and then success is
exactly `[backoff^0, …, backoff^(k-1)]`, with no sleep after the final
attempt, one success event tagged with attempt k+1, and the response
returned; when instead every budgeted attempt fails retryably, the
schedule is `[backoff^0, …, backoff^(n-2)]` — again none after the final
attempt. -/
theorem c6_backoff_schedule (env : ExecEnv) (cfg : WebhookConfig) (ovr : Overrides)
    (u2 : Option String) (hs2 : List (String × String)) (p2 : Json)
    (hr : renderAll env.render env.parseJson (buildRequest cfg ovr).url
      (buildRequest cfg ovr).headers (buildRequest cfg ovr).payload = .ok (u2, hs2, p2)) :
    (∀ k r, (∀ j, j < k → retryableFail (env.transport j) = true) →
      env.transport k = .ok r → k < (buildRequest cfg ovr).retryAttempts.toNat →
      sleeps (execute env cfg ovr).1 =
        (List.range k).map (fun j => (buildRequest cfg ovr).retryBackoff ^ j) ∧
      eventCount (execute env cfg ovr).1 = 1 ∧
      Effect.fireSuccess (buildRequest cfg ovr).webhookId r.status_code ((k : Int) + 1) ∈
        (execute env cfg ovr).1 ∧
      requestCount (execute env cfg ovr).1 = k + 1 ∧
      (execute env cfg ovr).2 = .ok (some r))
  ∧ (1 ≤ (buildRequest cfg ovr).retryAttempts.toNat →
      (∀ j, j < (buildRequest cfg ovr).retryAttempts.toNat →
        retryableFail (env.transport j) = true) →
      sleeps (execute env cfg ovr).1 =
        (List.range ((buildRequest cfg ovr).retryAttempts.toNat - 1)).map
          (fun j => (buildRequest cfg ovr).retryBackoff ^ j)) := by
  constructor
  · intro k r hfail hok hk
    rw [execute_render_ok env cfg ovr u2 hs2 p2 hr]
    rw [execLoop_success_at env.transport (buildRequest cfg ovr).webhookId u2
      (buildRequest cfg ovr).method hs2 p2 (buildRequest cfg ovr).retryBackoff
      (buildRequest cfg ovr).retryAttempts k (buildRequest cfg ovr).retryAttempts.toNat
      0 none r (by simpa using hfail) (by simpa using hok) hk]
    refine ⟨?_, ?_, ?_, ?_, rfl⟩
    · have h0 := failSeg_sleeps u2 (buildRequest cfg ovr).method hs2 p2
        (buildRequest cfg ovr).retryBackoff 0 k
      simp only [sleeps] at h0 ⊢
      simp [List.filterMap_cons, List.filterMap_append, h0]
    · have h0 := failSeg_events u2 (buildRequest cfg ovr).method hs2 p2
        (buildRequest cfg ovr).retryBackoff 0 k
      simp only [eventCount] at h0 ⊢
      simp [List.countP_cons, List.countP_append, isEvent, h0]
    · simp [List.mem_cons, List.mem_append]
    · have h0 := failSeg_requests u2 (buildRequest cfg ovr).method hs2 p2
        (buildRequest cfg ovr).retryBackoff 0 k
      simp only [requestCount] at h0 ⊢
      simp [List.countP_cons, List.countP_append, isRequest, h0]
  · intro h1 hfail
    rw [execute_render_ok env cfg ovr u2 hs2 p2 hr]
    rw [execLoop_exhaust_all env.transport (buildRequest cfg ovr).webhookId u2
      (buildRequest cfg ovr).method hs2 p2 (buildRequest cfg ovr).retryBackoff
      (buildRequest cfg ovr).retryAttempts (buildRequest cfg ovr).retryAttempts.toNat h1
      0 none (by simpa using hfail)]
    have h0 := failSeg_sleeps u2 (buildRequest cfg ovr).method hs2 p2
      (buildRequest cfg ovr).retryBackoff 0 ((buildRequest cfg ovr).retryAttempts.toNat - 1)
    simp only [sleeps] at h0 ⊢
    simp [List.filterMap_cons, List.filterMap_append, h0]

/-- A network that returns HTTP 404 on every attempt. -/
def envHttp404 : ExecEnv :=
  { render := fun s => .ok s, parseJson := fun _ => none,
    transport := fun _ => .httpError 404 "Not Found" }

/-- A webhook with five attempts budgeted. -/
def cfgFiveRetries : WebhookConfig :=
  { webhook_id := some "w5", url := some "u5",
    retry_attempts := some 5, retry_backoff := some 2 }

/-- C5 witness: the spec's example — `HttpError(404)` on attempt 1 of
`retry_attempts = 5` aborts at once with exactly one error event tagged
`attempt = 1` and `status_code = 404`. -/
theorem c5_witness :
    eventCount (execute envHttp404 cfgFiveRetries {}).1 = 1 ∧
    Effect.fireError "w5" "http_error" "HTTP 404: Not Found" 1 (some 404) ∈
      (execute envHttp404 cfgFiveRetries {}).1 ∧
    requestCount (execute envHttp404 cfgFiveRetries {}).1 = 1 ∧
    (execute envHttp404 cfgFiveRetries {}).2 = .error (.clientResponseError 404 "Not Found") :=
  (c5_http_4xx_aborts envHttp404 cfgFiveRetries {} (some "u5") [] .null 0 404 "Not Found"
    rfl (fun j hj => absurd hj (Nat.not_lt_zero j)) (by decide) rfl).1 (by decide)

/-- A network that refuses the first two attempts and succeeds on the
third with status 200. -/
def envFlaky : ExecEnv :=
  { render := fun s => .ok s, parseJson := fun _ => none,
    transport := fun i => if i < 2 then .connError "reset" else .ok { status_code := 200 } }

/-- A webhook with three attempts budgeted and backoff base 2. -/
def cfgThreeRetries : WebhookConfig :=
  { webhook_id := some "w6", url := some "u6",
    retry_attempts := some 3, retry_backoff := some 2 }

/-- C6 witness: the spec's example — `retry_attempts = 3`, base 2,
`ConnectionError` on attempts 1-2, success on attempt 3: waits of 1s and
2s, three requests, one success event with `attempt = 3`. -/
theorem c6_witness :
    sleeps (execute envFlaky cfgThreeRetries {}).1 = [1, 2] ∧
    eventCount (execute envFlaky cfgThreeRetries {}).1 = 1 ∧
    Effect.fireSuccess "w6" 200 3 ∈ (execute envFlaky cfgThreeRetries {}).1 ∧
    requestCount (execute envFlaky cfgThreeRetries {}).1 = 3 ∧
    (execute envFlaky cfgThreeRetries {}).2 = .ok (some { status_code := 200 }) := by
  obtain ⟨h1, h2, h3, h4, h5⟩ :=
    (c6_backoff_schedule envFlaky cfgThreeRetries {} (some "u6") [] .null rfl).1 2
      { status_code := 200 } (by decide) (by decide) (by decide)
  refine ⟨?_, h2, ?_, h4, h5⟩
  · rw [h1]
    decide
  · exact h3

/-! ## C7: Config Resolver precedence -/

/-- C7 (amended): `resolve(id)` returns the editable-store record in
full whenever that record is truthy (a falsy store record — e.g. an
empty dict — falls through to the declarative scan instead); it is never
a field-level merge.  In the enumeration, a declarative entry whose id
is not an editable-store key keeps its original value. -/
theorem c7_store_precedence (m : ConfigManager) :
    (∀ wid ui, storageGetWebhook m wid = some ui → pyTruthy ui = true →
      getWebhook m wid = some ui)
  ∧ (∀ k : Json,
      pyLookup (m.storeWebhooks.map (fun kv => (Json.str kv.1, kv.2))) k = none →
      pyLookup (getAllWebhooks m) k = pyLookup (yamlSeed m) k) := by
  constructor
  · intro wid ui hsg ht
    simp [getWebhook, hsg, ht]
  · intro k hk
    exact pyLookup_pyUpdate_of_none _ _ _ hk

/-- A manager whose editable store overrides id `a` with an empty dict. -/
def mgrFalsyOverride : ConfigManager :=
  { yamlWebhooks := some [Json.obj [("webhook_id", Json.str "a"), ("url", Json.str "yaml-url")]],
    storeWebhooks := [("a", Json.obj [])] }

/-- C7 counterexample: id `a` is present in both sources, but because the
editable-store record is an empty (falsy) dict, `get_webhook` returns
the declarative record, not the editable-store version in full. -/
theorem c7_counterexample_falsy_store :
    storageGetWebhook mgrFalsyOverride "a" = some (Json.obj []) ∧
    getWebhook mgrFalsyOverride "a" =
      some (Json.obj [("webhook_id", Json.str "a"), ("url", Json.str "yaml-url")]) ∧
    getWebhook mgrFalsyOverride "a" ≠ some (Json.obj []) := by
  refine ⟨rfl, rfl, by decide⟩

/-- A manager with two declarative entries, one overridden in the store. -/
def mgrBothSources : ConfigManager :=
  { yamlWebhooks := some
      [Json.obj [("webhook_id", Json.str "a"), ("url", Json.str "yaml-url")],
       Json.obj [("webhook_id", Json.str "b"), ("url", Json.str "b-url")]],
    storeWebhooks := [("a", Json.obj [("webhook_id", Json.str "a"), ("url", Json.str "ui-url")])] }

/-- C7 witness: the truthy store record for `a` wins in full, and the
non-overridden declarative entry `b` keeps its original value in the
enumeration. -/
theorem c7_witness :
    getWebhook mgrBothSources "a" =
      some (Json.obj [("webhook_id", Json.str "a"), ("url", Json.str "ui-url")]) ∧
    pyLookup (getAllWebhooks mgrBothSources) (Json.str "b") =
      pyLookup (yamlSeed mgrBothSources) (Json.str "b") :=
  ⟨(c7_store_precedence mgrBothSources).1 "a"
      (Json.obj [("webhook_id", Json.str "a"), ("url", Json.str "ui-url")]) rfl (by decide),
   (c7_store_precedence mgrBothSources).2 (Json.str "b") (by decide)⟩

/-! ## C2: UTF-8 size accounting for the transport -/

theorem utf8Length_nil : utf8Length [] = 0 := rfl

theorem utf8Length_cons (c : Nat) (l : List Nat) :
    utf8Length (c :: l) = (encodeChar c).length + utf8Length l := by
  simp [utf8Length, utf8Encode]

theorem utf8Encode_append (l1 l2 : List Nat) :
    utf8Encode (l1 ++ l2) = utf8Encode l1 ++ utf8Encode l2 := by
  simp [utf8Encode]

theorem encodeChar_ascii (c : Nat) (h : c < 0x80) : encodeChar c = [c] := by
  simp [encodeChar, h]

theorem encodeChar_length_le_two (c : Nat) (h : c < 0x800) : (encodeChar c).length ≤ 2 := by
  unfold encodeChar
  split_ifs <;> simp_all <;> omega

theorem encodeChar_length_le_three (c : Nat) (h : c < 0x10000) :
    (encodeChar c).length ≤ 3 := by
  unfold encodeChar
  split_ifs <;> simp_all <;> omega

theorem encodeChar_length_le_four (c : Nat) : (encodeChar c).length ≤ 4 := by
  unfold encodeChar
  split_ifs <;> simp

theorem decodeStep_rem_le (b : Nat) (rest : List Nat) :
    (decodeStep b rest).2.length ≤ rest.length := by
  rcases rest with _ | ⟨b1, _ | ⟨b2, _ | ⟨b3, r3⟩⟩⟩ <;>
    · simp only [decodeStep]
      split_ifs <;> (try simp) <;> omega

theorem decodeStep_some_le (b : Nat) (rest : List Nat) (c : Nat) (rem : List Nat)
    (h : decodeStep b rest = (some c, rem)) :
    (encodeChar c).length + rem.length ≤ 1 + rest.length := by
  unfold decodeStep at h
  split at h
  · rename_i hb
    simp only [Prod.mk.injEq, Option.some.injEq] at h
    obtain ⟨rfl, rfl⟩ := h
    rw [encodeChar_ascii _ hb]
    simp
  · split at h
    · rename_i hb hrng
      split at h
      · split at h
        · rename_i b1 r1 hcont
          simp only [Prod.mk.injEq, Option.some.injEq] at h
          obtain ⟨rfl, rfl⟩ := h
          simp only [isCont, decide_eq_true_eq] at hcont
          have := encodeChar_length_le_two ((b - 0xC0) * 64 + (b1 - 0x80)) (by omega)
          simp only [List.length_cons]
          omega
        · simp at h
      · simp at h
    · split at h
      · rename_i hb hrng2 hrng3
        split at h
        · split at h
          · rename_i b1 b2 r2 hconds
            simp only [Prod.mk.injEq, Option.some.injEq] at h
            obtain ⟨rfl, rfl⟩ := h
            simp only [isCont, Bool.and_eq_true, Bool.or_eq_true, bne_iff_ne, ne_eq,
              decide_eq_true_eq] at hconds
            have := encodeChar_length_le_three
              ((b - 0xE0) * 4096 + (b1 - 0x80) * 64 + (b2 - 0x80)) (by omega)
            simp only [List.length_cons]
            omega
          · simp at h
        · simp at h
      · split at h
        · split at h
          · split at h
            · rename_i b1 b2 b3 r3 hconds
              simp only [Prod.mk.injEq, Option.some.injEq] at h
              obtain ⟨rfl, rfl⟩ := h
              have := encodeChar_length_le_four
                ((b - 0xF0) * 262144 + (b1 - 0x80) * 4096 + (b2 - 0x80) * 64 + (b3 - 0x80))
              simp only [List.length_cons]
              omega
            · simp at h
          · simp at h
        · simp at h

/-- The UTF-8 byte count of what the decoder loop recovers never exceeds
the raw byte count: every accepted sequence re-encodes to at most the
bytes it consumed, skipped bytes contribute nothing. -/
theorem utf8Length_decodeLoop_le : ∀ (fuel : Nat) (bs : List Nat),
    utf8Length (decodeLoop fuel bs) ≤ bs.length := by
  intro fuel
  induction fuel with
  | zero =>
      intro bs
      cases bs <;> simp [decodeLoop, utf8Length, utf8Encode]
  | succ f ih =>
      intro bs
      cases bs with
      | nil => simp [decodeLoop, utf8Length, utf8Encode]
      | cons b rest =>
          simp only [decodeLoop]
          cases hstep : decodeStep b rest with
          | mk oc rem =>
              cases oc with
              | some c =>
                  show utf8Length (c :: decodeLoop f rem) ≤ (b :: rest).length
                  rw [utf8Length_cons]
                  have h1 := decodeStep_some_le b rest c rem hstep
                  have h2 := ih rem
                  simp only [List.length_cons]
                  omega
              | none =>
                  show utf8Length (decodeLoop f rem) ≤ (b :: rest).length
                  have h1 := decodeStep_rem_le b rest
                  rw [hstep] at h1
                  simp only [List.length_cons] at h1 ⊢
                  have h2 := ih rem
                  omega

theorem utf8Length_decodeIgnore_le (bs : List Nat) :
    utf8Length (decodeIgnore bs) ≤ bs.length :=
  utf8Length_decodeLoop_le bs.length bs

theorem utf8Encode_cons (c : Nat) (l : List Nat) :
    utf8Encode (c :: l) = encodeChar c ++ utf8Encode l := by
  simp [utf8Encode]

theorem utf8Encode_replicate_ascii (n a : Nat) (h : a < 0x80) :
    utf8Encode (List.replicate n a) = List.replicate n a := by
  induction n with
  | zero => rfl
  | succ m ih =>
      rw [List.replicate_succ, utf8Encode_cons, encodeChar_ascii _ h, ih]
      rfl

theorem decodeLoop_ascii_prefix : ∀ (n a : Nat) (rest : List Nat), a < 0x80 →
    decodeLoop (n + rest.length) (List.replicate n a ++ rest) =
      List.replicate n a ++ decodeLoop rest.length rest := by
  intro n
  induction n with
  | zero => intro a rest _; simp
  | succ m ih =>
      intro a rest h
      rw [List.replicate_succ, List.cons_append,
        show m + 1 + rest.length = (m + rest.length) + 1 by omega]
      simp only [decodeLoop]
      rw [show decodeStep a (List.replicate m a ++ rest) =
        (some a, List.replicate m a ++ rest) from by simp [decodeStep, h]]
      show a :: decodeLoop (m + rest.length) (List.replicate m a ++ rest) = _
      rw [ih a rest h, List.cons_append]

theorem decodeIgnore_ascii_append (n a : Nat) (rest : List Nat) (h : a < 0x80) :
    decodeIgnore (List.replicate n a ++ rest) = List.replicate n a ++ decodeIgnore rest := by
  unfold decodeIgnore
  rw [show (List.replicate n a ++ rest).length = n + rest.length by simp]
  exact decodeLoop_ascii_prefix n a rest h

theorem decodeIgnore_replicate_ascii (n a : Nat) (h : a < 0x80) :
    decodeIgnore (List.replicate n a) = List.replicate n a := by
  have h2 := decodeIgnore_ascii_append n a [] h
  rw [List.append_nil, show decodeIgnore [] = [] from rfl, List.append_nil] at h2
  exact h2

theorem decodeLoop_replicate_invalid : ∀ n : Nat, decodeLoop n (List.replicate n 0xFF) = [] := by
  intro n
  induction n with
  | zero => rfl
  | succ m ih =>
      rw [List.replicate_succ]
      simp only [decodeLoop]
      rw [show decodeStep 0xFF (List.replicate m 0xFF) = (none, List.replicate m 0xFF)
        from by norm_num [decodeStep]]
      exact ih

theorem decodeIgnore_replicate_invalid (n : Nat) :
    decodeIgnore (List.replicate n 0xFF) = [] := by
  unfold decodeIgnore
  rw [List.length_replicate]
  exact decodeLoop_replicate_invalid n

theorem pyDecodeStrict_some (bs txt : List Nat) (h : pyDecodeStrict bs = some txt) :
    txt = decodeIgnore bs ∧ utf8Encode txt = bs := by
  unfold pyDecodeStrict at h
  split at h
  · rename_i heq
    injection h with h2
    subst h2
    exact ⟨rfl, heq⟩
  · cases h

theorem pyDecodeStrict_of (bs txt : List Nat) (hdec : decodeIgnore bs = txt)
    (henc : utf8Encode txt = bs) : pyDecodeStrict bs = some txt := by
  unfold pyDecodeStrict
  rw [hdec, henc]
  simp [hdec]

theorem sizeCheckOf_none (headers : List (String × String))
    (hcl : ∀ cl, headerGet headers "Content-Length" = some cl → cl ≠ "" →
      ∀ v, pyInt? cl = some v → v ≤ (MAX_RESPONSE_SIZE : Int)) :
    sizeCheckOf headers = none := by
  rcases hh : headerGet headers "Content-Length" with _ | cl
  · simp [sizeCheckOf, hh]
  · simp only [sizeCheckOf, hh]
    by_cases hce : cl = ""
    · simp [hce]
    · rw [if_neg hce]
      rcases hpi : pyInt? cl with _ | v
      · simp only [hpi]
      · have hv := hcl cl hh hce v hpi
        simp only [hpi]
        rw [if_neg (by omega)]

theorem makeRequest_eq_readBody (jparse : List Nat → Option Json) (resp : RawResponse)
    (hst : resp.status < 400) (hsz : sizeCheckOf resp.headers = none) :
    makeRequest jparse resp = readBodyOf jparse resp.status resp.headers resp.bodyBytes := by
  unfold makeRequest
  rw [if_neg (by omega), hsz]

theorem readBodyOf_trunc (jparse : List Nat → Option Json) (status : Nat)
    (headers : List (String × String)) (bodyBytes txt : List Nat)
    (hdec : pyDecodeStrict bodyBytes = some txt)
    (hbig : MAX_RESPONSE_SIZE < bodyBytes.length) :
    readBodyOf jparse status headers bodyBytes =
      ([.truncWarning bodyBytes.length MAX_RESPONSE_SIZE],
       .ok { status_code := status, headers := headers,
             body := decodeIgnore (bodyBytes.take MAX_RESPONSE_SIZE),
             json := jsonField jparse (decodeIgnore (bodyBytes.take MAX_RESPONSE_SIZE)) }) := by
  obtain ⟨hd, he⟩ := pyDecodeStrict_some bodyBytes txt hdec
  simp only [readBodyOf, hdec, he]
  rw [if_pos hbig]

/-- C2 (amended): for every response with a success status, no declared
over-cap `Content-Length`, and a UTF-8-valid body longer than the 1 MiB
cap, the transport does not raise: it logs exactly one truncation
warning and returns the record whose body is the cap-boundary byte
truncation decoded with the invalid trailing bytes dropped — so the
body's UTF-8 byte count is at most 1 MiB.  (A parseable over-cap
`Content-Length` raises a hard size error instead, and a body that is
not valid UTF-8 raises a decode error — see the counterexample.) -/
theorem c2_truncated_to_cap (jparse : List Nat → Option Json) (resp : RawResponse)
    (txt : List Nat) (hst : resp.status < 400)
    (hcl : ∀ cl, headerGet resp.headers "Content-Length" = some cl → cl ≠ "" →
      ∀ v, pyInt? cl = some v → v ≤ (MAX_RESPONSE_SIZE : Int))
    (hdec : pyDecodeStrict resp.bodyBytes = some txt)
    (hbig : MAX_RESPONSE_SIZE < resp.bodyBytes.length) :
    makeRequest jparse resp =
      ([.truncWarning resp.bodyBytes.length MAX_RESPONSE_SIZE],
       .ok { status_code := resp.status, headers := resp.headers,
             body := decodeIgnore (resp.bodyBytes.take MAX_RESPONSE_SIZE),
             json := jsonField jparse (decodeIgnore (resp.bodyBytes.take MAX_RESPONSE_SIZE)) }) ∧
    utf8Length (decodeIgnore (resp.bodyBytes.take MAX_RESPONSE_SIZE)) ≤ MAX_RESPONSE_SIZE := by
  constructor
  · rw [makeRequest_eq_readBody jparse resp hst (sizeCheckOf_none resp.headers hcl)]
    exact readBodyOf_trunc jparse resp.status resp.headers resp.bodyBytes txt hdec hbig
  · calc utf8Length (decodeIgnore (resp.bodyBytes.take MAX_RESPONSE_SIZE)) ≤
        (resp.bodyBytes.take MAX_RESPONSE_SIZE).length :=
          utf8Length_decodeIgnore_le _
      _ ≤ MAX_RESPONSE_SIZE := by simp [List.length_take]

/-- A JSON-parse oracle over decoded text that always fails. -/
def noJsonBytes : List Nat → Option Json := fun _ => none

/-- A 2 MiB body with its size declared in `Content-Length`. -/
def respOverCapDeclared : RawResponse :=
  { status := 200, headers := [("Content-Length", "2097152")],
    bodyBytes := List.replicate 2097152 0x61 }

/-- A body one byte over the cap whose cap boundary falls in the middle
of the two-byte character U+00E9 (`0xC3 0xA9`). -/
def respMidCharCut : RawResponse :=
  { status := 200, headers := [],
    bodyBytes := List.replicate (MAX_RESPONSE_SIZE - 1) 0x61 ++ [0xC3, 0xA9] }

/-- An over-cap body that is not valid UTF-8 (all `0xFF`). -/
def respInvalidUtf8 : RawResponse :=
  { status := 200, headers := [],
    bodyBytes := List.replicate (MAX_RESPONSE_SIZE + 1) 0xFF }

/-- Branch (a) of the C2 counterexample: the declared-size hard error. -/
theorem overCapDeclared_len : MAX_RESPONSE_SIZE < respOverCapDeclared.bodyBytes.length := by
  show MAX_RESPONSE_SIZE < (List.replicate 2097152 0x61).length
  rw [List.length_replicate]
  norm_num [MAX_RESPONSE_SIZE]

theorem overCapDeclared_err : makeRequest noJsonBytes respOverCapDeclared =
    ([], .error (.sizeLimitError "2097152")) := rfl

theorem midCharCut_len : MAX_RESPONSE_SIZE < respMidCharCut.bodyBytes.length := by
  show MAX_RESPONSE_SIZE <
    (List.replicate (MAX_RESPONSE_SIZE - 1) 0x61 ++ [0xC3, 0xA9]).length
  rw [List.length_append, List.length_replicate,
    show ([0xC3, 0xA9] : List Nat).length = 2 from rfl]
  have hM : MAX_RESPONSE_SIZE = 1048576 := rfl
  omega

/-- Strict decoding of the mid-character-cut body succeeds (the body is
canonical UTF-8), with the two-byte tail decoding to U+00E9. -/
theorem midCharCut_decode : pyDecodeStrict respMidCharCut.bodyBytes =
    some (List.replicate (MAX_RESPONSE_SIZE - 1) 0x61 ++ [0xE9]) := by
  apply pyDecodeStrict_of
  · rw [show respMidCharCut.bodyBytes =
      List.replicate (MAX_RESPONSE_SIZE - 1) 0x61 ++ [0xC3, 0xA9] from rfl]
    rw [decodeIgnore_ascii_append _ _ _ (by norm_num)]
    rw [show decodeIgnore [0xC3, 0xA9] = [0xE9] from by decide]
  · rw [utf8Encode_append, utf8Encode_replicate_ascii _ _ (by norm_num)]
    rw [show utf8Encode [0xE9] = [0xC3, 0xA9] from by decide]
    rfl

/-- Branch (b) of the C2 counterexample: the cap boundary falls inside
the trailing two-byte character, the lead byte is dropped by
`errors="ignore"`, and the returned body is one byte short of the cap. -/
theorem midCharCut_trunc : ∃ rec, makeRequest noJsonBytes respMidCharCut =
      ([.truncWarning respMidCharCut.bodyBytes.length MAX_RESPONSE_SIZE], .ok rec) ∧
    utf8Length rec.body = MAX_RESPONSE_SIZE - 1 ∧
    utf8Length rec.body ≠ MAX_RESPONSE_SIZE := by
  have htake : respMidCharCut.bodyBytes.take MAX_RESPONSE_SIZE =
      List.replicate (MAX_RESPONSE_SIZE - 1) 0x61 ++ [0xC3] := by
    simp only [respMidCharCut, List.take_append_eq_append_take, List.take_replicate,
      List.length_replicate]
    have hM : MAX_RESPONSE_SIZE = 1048576 := rfl
    rw [Nat.min_eq_right (by omega), show MAX_RESPONSE_SIZE - (MAX_RESPONSE_SIZE - 1) = 1
      from by omega]
    rw [show List.take 1 [0xC3, 0xA9] = [0xC3] from rfl]
  have hdecTrunc : decodeIgnore (respMidCharCut.bodyBytes.take MAX_RESPONSE_SIZE) =
      List.replicate (MAX_RESPONSE_SIZE - 1) 0x61 := by
    rw [htake, decodeIgnore_ascii_append _ _ _ (by norm_num),
      show decodeIgnore [0xC3] = [] from by decide, List.append_nil]
  have heq := makeRequest_eq_readBody noJsonBytes respMidCharCut (by decide) rfl
  rw [readBodyOf_trunc noJsonBytes respMidCharCut.status respMidCharCut.headers
    respMidCharCut.bodyBytes _ midCharCut_decode midCharCut_len] at heq
  refine ⟨_, heq, ?_, ?_⟩
  · rw [hdecTrunc]
    show (utf8Encode (List.replicate (MAX_RESPONSE_SIZE - 1) 0x61)).length = _
    rw [utf8Encode_replicate_ascii _ _ (by norm_num), List.length_replicate]
  · rw [hdecTrunc]
    show (utf8Encode (List.replicate (MAX_RESPONSE_SIZE - 1) 0x61)).length ≠ _
    rw [utf8Encode_replicate_ascii _ _ (by norm_num), List.length_replicate]
    have hM : MAX_RESPONSE_SIZE = 1048576 := rfl
    omega

theorem invalidUtf8_len : MAX_RESPONSE_SIZE < respInvalidUtf8.bodyBytes.length := by
  show MAX_RESPONSE_SIZE < (List.replicate (MAX_RESPONSE_SIZE + 1) 0xFF).length
  rw [List.length_replicate]
  omega

/-- A body that fails strict decoding makes `_make_request` raise
`UnicodeDecodeError` from `response.text()` (line 230). -/
theorem readBodyOf_decodeErr (jparse : List Nat → Option Json) (status : Nat)
    (headers : List (String × String)) (bodyBytes : List Nat)
    (h : pyDecodeStrict bodyBytes = none) :
    readBodyOf jparse status headers bodyBytes = ([], .error .unicodeDecodeError) := by
  unfold readBodyOf
  rw [h]

/-- Branch (c) of the C2 counterexample: the all-`0xFF` body fails
strict decoding, so `response.text()` raises before any truncation. -/
theorem invalidUtf8_err : makeRequest noJsonBytes respInvalidUtf8 =
    ([], .error .unicodeDecodeError) := by
  have hnone : pyDecodeStrict respInvalidUtf8.bodyBytes = none := by
    unfold pyDecodeStrict
    rw [show respInvalidUtf8.bodyBytes = List.replicate (MAX_RESPONSE_SIZE + 1) 0xFF from rfl,
      decodeIgnore_replicate_invalid]
    rw [if_neg]
    intro h
    have hl := congrArg List.length h
    rw [show (utf8Encode []).length = 0 from rfl, List.length_replicate] at hl
    omega
  rw [makeRequest_eq_readBody noJsonBytes respInvalidUtf8 (by decide) rfl,
    readBodyOf_decodeErr _ _ _ _ hnone]

/-- C2 counterexample, three over-cap responses: (a) a parseable over-cap
`Content-Length` makes the transport raise a hard size error (lines
220-223) — not "never raised to caller"; (b) a cap boundary through a
two-byte character leaves the returned body at 1 MiB − 1 bytes — not
"exactly 1 MiB"; (c) a body that is not valid UTF-8 raises a decode
error from `response.text()` before any truncation. -/
theorem c2_counterexample_size_paths :
    (MAX_RESPONSE_SIZE < respOverCapDeclared.bodyBytes.length ∧
     makeRequest noJsonBytes respOverCapDeclared =
       ([], .error (.sizeLimitError "2097152"))) ∧
    (MAX_RESPONSE_SIZE < respMidCharCut.bodyBytes.length ∧
     ∃ rec, makeRequest noJsonBytes respMidCharCut =
         ([.truncWarning respMidCharCut.bodyBytes.length MAX_RESPONSE_SIZE], .ok rec) ∧
       utf8Length rec.body = MAX_RESPONSE_SIZE - 1 ∧
       utf8Length rec.body ≠ MAX_RESPONSE_SIZE) ∧
    (MAX_RESPONSE_SIZE < respInvalidUtf8.bodyBytes.length ∧
     makeRequest noJsonBytes respInvalidUtf8 = ([], .error .unicodeDecodeError)) :=
  ⟨⟨overCapDeclared_len, overCapDeclared_err⟩,
   ⟨midCharCut_len, midCharCut_trunc⟩,
   ⟨invalidUtf8_len, invalidUtf8_err⟩⟩

/-- A UTF-8-valid (all-ASCII) body one byte over the cap. -/
def respBigAscii : RawResponse :=
  { status := 200, headers := [], bodyBytes := List.replicate (MAX_RESPONSE_SIZE + 1) 0x61 }

/-- C2 witness: the amended truncation theorem at a concrete over-cap
ASCII body — one truncation warning, no error, body byte count within
the cap. -/
theorem c2_witness :
    MAX_RESPONSE_SIZE < respBigAscii.bodyBytes.length ∧
    makeRequest noJsonBytes respBigAscii =
      ([.truncWarning respBigAscii.bodyBytes.length MAX_RESPONSE_SIZE],
       .ok { status_code := respBigAscii.status, headers := respBigAscii.headers,
             body := decodeIgnore (respBigAscii.bodyBytes.take MAX_RESPONSE_SIZE),
             json := jsonField noJsonBytes
               (decodeIgnore (respBigAscii.bodyBytes.take MAX_RESPONSE_SIZE)) }) ∧
    utf8Length (decodeIgnore (respBigAscii.bodyBytes.take MAX_RESPONSE_SIZE)) ≤
      MAX_RESPONSE_SIZE := by
  have hdec : pyDecodeStrict respBigAscii.bodyBytes =
      some (List.replicate (MAX_RESPONSE_SIZE + 1) 0x61) :=
    pyDecodeStrict_of _ _ (decodeIgnore_replicate_ascii _ _ (by norm_num))
      (utf8Encode_replicate_ascii _ _ (by norm_num))
  have hbig : MAX_RESPONSE_SIZE < respBigAscii.bodyBytes.length := by
    show MAX_RESPONSE_SIZE < (List.replicate (MAX_RESPONSE_SIZE + 1) 0x61).length
    rw [List.length_replicate]
    omega
  have h := c2_truncated_to_cap noJsonBytes respBigAscii
    (List.replicate (MAX_RESPONSE_SIZE + 1) 0x61) (by decide)
    (by intro cl hcl; simp [respBigAscii, headerGet, pyLookup] at hcl) hdec hbig
  exact ⟨hbig, h.1, h.2⟩

end WebhookActions
